import Mathlib

/-!
Shallow embedding of `packages/fluentui/react-bindings/src/styles/resolveStyles.ts`.

The source builds, per resolution call, two records of lazy getters/setters
(`resolvedStyles` and `classes`) over a merged style set, backed by two
theme-scoped WeakMap caches (`stylesCache`, `classesCache`).  We model:

* JS records as association lists with overwrite-on-set (`recGet`/`recSet`);
* the two WeakMaps as association lists keyed by theme identity
  (`wmGet`/`wmSet`); themes are identity-compared, so a `Nat` id stands for
  the theme reference;
* JS objects returned by style functions as heap references (`StyleVal.ref`)
  into an explicit heap, so that the in-place `_debug` deletion performed by
  the source is visible to every alias (memo, cache, caller) exactly as in JS;
* JS truthiness: `undefined` and the empty string are falsy, objects and
  nonempty strings are truthy;
* the process-wide `process.env.NODE_ENV` / `isDebugEnabled` flags as an
  explicit `Env` value, and the external collaborators (`mergeComponentStyles`,
  `withDebugId` uses) as explicit function parameters (`Externals`), per the
  spec these are external to the core;
* the re-entrant getter reads performed by the debug-extraction lines
  (`resolvedStyles[slotName]` inside the getter itself) by fuel-indexed
  recursion; fuel exhaustion (`none`) corresponds to the unbounded recursion
  the source would perform in that situation;
* `performance.now()` deltas abstractly: each measured section adds one tick
  to the corresponding `ms...` counter (no claim depends on wall-clock time);
* invocation counting of the slot style functions and of
  `renderer.renderRule` as ghost per-slot counters in the state.
-/

/-- Association-list lookup (JS property read: `none` = undefined). -/
def aGet {κ α : Type} [BEq κ] (r : List (κ × α)) (k : κ) : Option α :=
  (r.find? (fun p => p.1 == k)).map (fun p => p.2)

/-- Association-list overwrite (JS property write / spread-set): the new
binding shadows any earlier one; records are only ever observed through
`aGet`. -/
def aSet {κ α : Type} [BEq κ] (r : List (κ × α)) (k : κ) (v : α) : List (κ × α) :=
  (k, v) :: r

/-- JS record lookup: `r[k]`, `none` when the key is absent (undefined). -/
def recGet {α : Type} (r : List (String × α)) (k : String) : Option α :=
  aGet r k

/-- JS record functional overwrite, as done by spread `...old` plus `[k]: v`. -/
def recSet {α : Type} (r : List (String × α)) (k : String) (v : α) : List (String × α) :=
  aSet r k v

/-- WeakMap lookup keyed by theme identity. -/
def wmGet {α : Type} (m : List (Nat × α)) (k : Nat) : Option α :=
  aGet m k

/-- WeakMap `set`. -/
def wmSet {α : Type} (m : List (Nat × α)) (k : Nat) (v : α) : List (Nat × α) :=
  aSet m k v

/-- The `if (!cache.has(theme)) cache.set(theme, {})` initialisation. -/
def wmEnsure {α : Type} (m : List (Nat × List (String × α))) (k : Nat) :
    List (Nat × List (String × α)) :=
  if (wmGet m k).isSome then m else wmSet m k []

/-- Ghost instrumentation: bump a per-slot invocation counter. -/
def bumpCount (m : List (String × Nat)) (k : String) : List (String × Nat) :=
  recSet m k (((recGet m k).getD 0) + 1)

/-- Ghost instrumentation: read a per-slot invocation counter. -/
def getCount (m : List (String × Nat)) (k : String) : Nat :=
  (recGet m k).getD 0

/-- The `cx` (classnames) helper: join the truthy arguments with single
spaces, skipping `undefined` and empty strings. -/
def cxList (xs : List (Option String)) : String :=
  String.intercalate " " ((xs.filterMap id).filter (fun s => s != ""))

/-- JS template-literal rendering of a boolean. -/
def boolStr (b : Bool) : String := if b then "true" else "false"

/-- A JS value supplied for one variable inside of a `variables` object. -/
inductive VarVal : Type where
  | vnull : VarVal
  | vundef : VarVal
  | vbool : Bool → VarVal
  | vstr : String → VarVal
  | vnum : Int → VarVal
deriving DecidableEq, Repr

/-- The `props.variables` value: `vnone` = `undefined`/`null` (lodash `isNil`),
`vobj` = a plain object, `vother` = a truthy non-plain-object value such as a
function (lodash `isPlainObject` is false, `isNil` is false). -/
inductive Variables : Type where
  | vnone : Variables
  | vobj : List (String × VarVal) → Variables
  | vother : Variables
deriving DecidableEq, Repr

/-- JS truthiness of the `variables` value. -/
def Variables.truthy : Variables → Bool
  | .vnone => false
  | .vobj _ => true
  | .vother => true

/-- The value is `null`, `undefined` or a boolean (condition of
`hasOnlyBooleanVariables`, lines 76-81). -/
def varValBoolish : VarVal → Bool
  | .vnull => true
  | .vundef => true
  | .vbool _ => true
  | .vstr _ => false
  | .vnum _ => false

/-- An `ICSSInJSStyle` object: ordinary declarations plus the optional
reserved `_debug` payload (kept apart structurally so that reading and
deleting the `_debug` property is direct). -/
structure StyleObject : Type where
  decls : List (String × String)
  debugPayload : Option (List String)
deriving DecidableEq, Repr

/-- A JS value of style type as seen by the getters: `undefined`, or a
reference to a heap-allocated style object. -/
inductive StyleVal : Type where
  | undef : StyleVal
  | ref : Nat → StyleVal
deriving DecidableEq, Repr

/-- JS truthiness: every object is truthy, `undefined` is falsy. -/
def StyleVal.truthy : StyleVal → Bool
  | .undef => false
  | .ref _ => true

/-- The component props, after the destructuring
`const { className, design, styles, variables, ...stylesProps } = props`
(line 60): the four style-affecting specials are explicit fields and
`stylesProps` is the rest.  `design`/`styles` payloads are opaque tokens
only consumed by the external merge collaborator; a `some` value is a JS
object and hence truthy. -/
structure Props : Type where
  className : Option String
  design : Option String
  styles : Option String
  vars : Variables
  stylesProps : List (String × String)
deriving DecidableEq, Repr

/-- The `ComponentStyleFunctionParam` built at lines 116-122 (the theme is
identity-compared, so its id stands in). -/
structure StyleParam : Type where
  props : Props
  vars : List (String × VarVal)
  themeId : Nat
  rtl : Bool
  disableAnimations : Bool
deriving DecidableEq, Repr

/-- The `RendererParam` built at lines 125-130. -/
structure RendererParam : Type where
  direction : String
  disableAnimations : Bool
  displayName : String
  sanitizeCss : Bool
deriving DecidableEq, Repr

/-- A slot's style function; `none` models a function that returns
`undefined` at runtime (the declared TS type always returns an object). -/
def StyleFunction : Type := StyleParam → Option StyleObject

/-- A component style set: slot name to style function. -/
def StyleSet : Type := List (String × StyleFunction)

/-- The theme: identity handle plus the display-name to style-set mapping. -/
structure Theme : Type where
  id : Nat
  componentStyles : List (String × StyleSet)

/-- The per-display-name telemetry record. -/
structure PerfRecord : Type where
  stylesRootCacheHits : Nat
  stylesSlotsCacheHits : Nat
  msResolveStylesTotal : Nat
  msRenderStylesTotal : Nat
deriving DecidableEq, Repr

/-- The optional telemetry recorder. -/
structure Telemetry : Type where
  enabled : Bool
  performance : List (String × PerfRecord)
deriving DecidableEq, Repr

/-- The `performance` flags on the options. -/
structure PerformanceFlags : Type where
  enableStylesCaching : Bool
  enableBooleanVariablesCaching : Bool
  enableSanitizeCssPlugin : Bool
deriving DecidableEq, Repr

/-- The ambient build flags: `process.env.NODE_ENV === production` and
`isDebugEnabled`. -/
structure Env : Type where
  production : Bool
  isDebugEnabled : Bool
deriving DecidableEq, Repr

/-- `ResolveStylesOptions` (the fields this module reads). -/
structure ResolveStylesOptions : Type where
  allDisplayNames : List String
  className : Option String
  theme : Theme
  primaryDisplayName : String
  props : Props
  rtl : Bool
  disableAnimations : Bool
  renderer : StyleObject → RendererParam → String
  performance : PerformanceFlags

/-- The external collaborators (imported from the styles package, outside
this core per the spec): `mergeComponentStyles(...styles)` on the collected
theme style sets, and the inline-override merge
`mergeComponentStyles(merged, design and withDebugId(..), styles and withDebugId(..))`. -/
structure Externals : Type where
  mergeMany : List StyleSet → StyleSet
  mergeOverrides : StyleSet → Option String → Option String → StyleSet

/-- The default style set substituted when the theme declares nothing:
`{ root: () => ({}) }`. -/
def emptyStyleObject : StyleObject := { decls := [], debugPayload := none }

def emptyRootStyles : StyleSet := [("root", fun _ => some emptyStyleObject)]

/-- Everything the installed getters/setters close over for one resolution
call. -/
structure CallCtx : Type where
  cacheEnabled : Bool
  themeId : Nat
  componentClassName : Option String
  callerClassName : Option String
  primaryDisplayName : String
  componentCacheKey : String
  mergedStyles : StyleSet
  styleParam : StyleParam
  rendererParam : RendererParam
  renderer : StyleObject → RendererParam → String
  debugEnabled : Bool

/-- The mutable world the getters act on: the heap of style objects, the two
theme-scoped caches, the two per-call lazy memos, the debug record, the
telemetry recorder, and the ghost invocation counters. -/
structure RState : Type where
  heap : List (Nat × StyleObject)
  nextRef : Nat
  stylesCache : List (Nat × List (String × StyleVal))
  classesCache : List (Nat × List (String × String))
  styleMemo : List (String × StyleVal)
  classMemo : List (String × String)
  debugMap : List (String × Option (List String))
  telemetry : Option Telemetry
  styleFnCalls : List (String × Nat)
  rendererCalls : List (String × Nat)

/-- Read a style object out of the heap. -/
def heapGet (s : RState) (r : Nat) : StyleObject :=
  (aGet s.heap r).getD emptyStyleObject

/-- `delete obj['_debug']`: in-place removal of the debug payload of the
object at reference `r`, visible through every alias. -/
def heapStrip (s : RState) (r : Nat) : RState :=
  { s with heap := s.heap.map (fun p =>
      if p.1 == r then (p.1, { p.2 with debugPayload := none }) else p) }

/-- Lines 63 and 74-89: the `noVariableOverrides` computation. -/
def computeNoVariableOverrides (bvc : Bool) (vs : Variables) : Bool :=
  let nvo := bvc || !vs.truthy
  if bvc then
    match vs with
    | .vobj l => if l.all (fun p => varValBoolish p.2) then nvo else false
    | .vnone => nvo
    | .vother => false
  else nvo

/-- Lines 60-91: the whole cache-eligibility decision. -/
def computeCacheEnabled (flags : PerformanceFlags) (props : Props) : Bool :=
  let noInlineStylesOverrides := props.design.isNone && props.styles.isNone
  flags.enableStylesCaching && noInlineStylesOverrides &&
    computeNoVariableOverrides flags.enableBooleanVariablesCaching props.vars

/-- The configuration error thrown at lines 67-71. -/
def configErrorMessage : String :=
  "fluentui react-northstar: to enable enableBooleanVariablesCaching you need to enable enableStylesCaching"

/-- Model of `JSON.stringify(stylesProps)` (a stable serialization; the
claims depend only on which inputs feed the key, not on JSON details). -/
def stringifyProps (l : List (String × String)) : String :=
  String.intercalate ";" (l.map (fun p => p.1 ++ "=" ++ p.2))

/-- Model of serializing one variable value. -/
def stringifyVarVal : VarVal → String
  | .vnull => "null"
  | .vundef => "undefined"
  | .vbool b => boolStr b
  | .vstr s => s
  | .vnum n => toString n

/-- Model of `JSON.stringify(variables)`. -/
def stringifyVariables : Variables → String
  | .vnone => "undefined"
  | .vobj l => String.intercalate ";" (l.map (fun p => p.1 ++ "=" ++ stringifyVarVal p.2))
  | .vother => "function"

/-- Lines 145-152: the base cache key. -/
def buildComponentCacheKey (opts : ResolveStylesOptions) (cacheEnabled : Bool) : String :=
  let propsCacheKey := if cacheEnabled then stringifyProps opts.props.stylesProps else ""
  let variablesCacheKey :=
    if cacheEnabled && opts.performance.enableBooleanVariablesCaching then
      stringifyVariables opts.props.vars
    else ""
  if cacheEnabled then
    String.intercalate ":" opts.allDisplayNames ++ ":" ++ propsCacheKey ++ ":" ++
      variablesCacheKey ++ ":" ++ boolStr opts.rtl ++ boolStr opts.disableAnimations
  else ""

/-- Lines 96-114: select the merged style set (theme lookup with the
root-only fallback, then the external inline-override merge when inline
overrides are present). -/
def buildMergedStyles (ext : Externals) (opts : ResolveStylesOptions) : StyleSet :=
  let noInlineStylesOverrides := opts.props.design.isNone && opts.props.styles.isNone
  let merged :=
    if opts.allDisplayNames.length == 1 then
      (recGet opts.theme.componentStyles (opts.allDisplayNames.headD "")).getD emptyRootStyles
    else
      let sets := opts.allDisplayNames.filterMap
        (fun displayName => recGet opts.theme.componentStyles displayName)
      if sets.length > 0 then ext.mergeMany sets else emptyRootStyles
  if !noInlineStylesOverrides then ext.mergeOverrides merged opts.props.design opts.props.styles
  else merged

/-- The body of `resolveStyles` up to installing the getters: the
configuration-error check, cache eligibility, merged styles, the two param
records, the cache initialisation and the cache keys.  Returns the context
closed over by the getters plus the state after the WeakMap initialisation;
`Except.error` models the thrown configuration error. -/
def resolveStyles (ext : Externals) (env : Env) (opts : ResolveStylesOptions)
    (resolvedVariables : List (String × VarVal)) (s : RState) :
    Except String (CallCtx × RState) :=
  if !env.production &&
      (!opts.performance.enableStylesCaching && opts.performance.enableBooleanVariablesCaching) then
    Except.error configErrorMessage
  else
    let cacheEnabled := computeCacheEnabled opts.performance opts.props
    let mergedStyles := buildMergedStyles ext opts
    let styleParam : StyleParam :=
      { props := opts.props, vars := resolvedVariables, themeId := opts.theme.id,
        rtl := opts.rtl, disableAnimations := opts.disableAnimations }
    let rendererParam : RendererParam :=
      { direction := if opts.rtl then "rtl" else "ltr",
        disableAnimations := opts.disableAnimations,
        displayName := String.intercalate ":" opts.allDisplayNames,
        sanitizeCss := opts.performance.enableSanitizeCssPlugin }
    let s1 := if cacheEnabled then
        { s with stylesCache := wmEnsure s.stylesCache opts.theme.id,
                 classesCache := wmEnsure s.classesCache opts.theme.id }
      else s
    Except.ok
      ({ cacheEnabled := cacheEnabled,
         themeId := opts.theme.id,
         componentClassName := opts.className,
         callerClassName := opts.props.className,
         primaryDisplayName := opts.primaryDisplayName,
         componentCacheKey := buildComponentCacheKey opts cacheEnabled,
         mergedStyles := mergedStyles,
         styleParam := styleParam,
         rendererParam := rendererParam,
         renderer := opts.renderer,
         debugEnabled := !env.production && env.isDebugEnabled }, s1)

/-- `Except.isOk`. -/
def isOkE {ε α : Type} : Except ε α → Bool
  | .ok _ => true
  | .error _ => false

/-- The per-slot cache key: `componentCacheKey + slotName` (line 157). -/
def slotKey (c : CallCtx) (slot : String) : String :=
  c.componentCacheKey ++ slot

/-- The theme's record inside `stylesCache` (`stylesCache.get(theme) || {}`). -/
def stylesCacheRec (c : CallCtx) (s : RState) : List (String × StyleVal) :=
  (wmGet s.stylesCache c.themeId).getD []

/-- The theme's record inside `classesCache`. -/
def classesCacheRec (c : CallCtx) (s : RState) : List (String × String) :=
  (wmGet s.classesCache c.themeId).getD []

/-- Lines 175-180: with caching enabled, a truthy entry of the styles cache
is returned directly. -/
def styleCacheLookup (c : CallCtx) (slot : String) (s : RState) : Option StyleVal :=
  if c.cacheEnabled then
    match recGet (stylesCacheRec c s) (slotKey c slot) with
    | some v => if v.truthy then some v else none
    | none => none
  else none

/-- Lines 164-169 and 191-196: store a value into the styles cache when
caching is enabled. -/
def styleStoreCache (c : CallCtx) (slot : String) (v : StyleVal) (s : RState) : RState :=
  if c.cacheEnabled then
    { s with stylesCache :=
        wmSet s.stylesCache c.themeId (recSet (stylesCacheRec c s) (slotKey c slot) v) }
  else s

/-- Lines 215-220 and 264-269: store a class string into the classes cache
when caching is enabled. -/
def classStoreCache (c : CallCtx) (slot : String) (v : String) (s : RState) : RState :=
  if c.cacheEnabled then
    { s with classesCache :=
        wmSet s.classesCache c.themeId (recSet (classesCacheRec c s) (slotKey c slot) v) }
  else s

/-- The classes-cache entry consulted by the classes getter (any present
string, the empty string included). -/
def classCacheHit (c : CallCtx) (slot : String) (s : RState) : Option String :=
  if c.cacheEnabled then recGet (classesCacheRec c s) (slotKey c slot) else none

/-- The slot's style function out of the merged style set.  A getter is only
installed for the keys of `mergedStyles`; a missing slot defaults to an
undefined-returning function (theorems about a slot always carry the slot's
function explicitly). -/
def slotFn (c : CallCtx) (slot : String) : StyleFunction :=
  (recGet c.mergedStyles slot).getD (fun _ => none)

/-- Lines 232-239: the cache-hit telemetry of the classes getter.  The
source guard is `telemetry?.performance[primaryDisplayName]` — the recorder
must be present and carry a record for the primary display name, but the
`enabled` flag is NOT consulted on this path (unlike lines 203 and 277). -/
def telemetryCacheHit (primary slot : String) (t : Option Telemetry) : Option Telemetry :=
  match t with
  | none => none
  | some tel =>
    match recGet tel.performance primary with
    | none => some tel
    | some pr =>
      let pr1 := if slot == "root" then
          { pr with stylesRootCacheHits := pr.stylesRootCacheHits + 1 }
        else
          { pr with stylesSlotsCacheHits := pr.stylesSlotsCacheHits + 1 }
      some { tel with performance := recSet tel.performance primary pr1 }

/-- Lines 203-205: `telemetry?.enabled && telemetry.performance[primary]`
guards adding the elapsed style-resolution time (modelled as one tick). -/
def telemetryResolveMs (primary : String) (t : Option Telemetry) : Option Telemetry :=
  match t with
  | none => none
  | some tel =>
    if tel.enabled then
      match recGet tel.performance primary with
      | none => some tel
      | some pr =>
        let pr1 := { pr with msResolveStylesTotal := pr.msResolveStylesTotal + 1 }
        some { tel with performance := recSet tel.performance primary pr1 }
    else some tel

/-- Lines 277-279: the render-time counterpart of `telemetryResolveMs`. -/
def telemetryRenderMs (primary : String) (t : Option Telemetry) : Option Telemetry :=
  match t with
  | none => none
  | some tel =>
    if tel.enabled then
      match recGet tel.performance primary with
      | none => some tel
      | some pr =>
        let pr1 := { pr with msRenderStylesTotal := pr.msRenderStylesTotal + 1 }
        some { tel with performance := recSet tel.performance primary pr1 }
    else some tel

/-- Lines 186-207 of the styles getter: the compute path.  Invoke the slot's
style function, memoize, store into the cache when enabled, then in
non-production debug mode run the debug extraction, which re-reads the
getter (`resolvedStyles[slotName]`) twice: once to read `['_debug']`, once
to delete it in place.  `reget` is the re-entrant getter; `none` bubbles up
fuel exhaustion. -/
def styleInvokeCore (c : CallCtx) (slot : String) (s : RState) : StyleVal × RState :=
  let s1 := { s with styleFnCalls := bumpCount s.styleFnCalls slot }
  let alloc : StyleVal × RState :=
    match slotFn c slot c.styleParam with
    | some o => (StyleVal.ref s1.nextRef,
        { s1 with heap := (s1.nextRef, o) :: s1.heap, nextRef := s1.nextRef + 1 })
    | none => (StyleVal.undef, s1)
  let s3 := { alloc.2 with styleMemo := recSet alloc.2.styleMemo slot alloc.1 }
  (alloc.1, styleStoreCache c slot alloc.1 s3)

/-- Lines 198-201: `resolvedStylesDebug[slotName] = resolvedStyles[slotName]['_debug']`
followed by `delete resolvedStyles[slotName]['_debug']`; both lines re-enter
the getter (`reget`); reading `['_debug']` of `undefined` throws (`none`). -/
def styleDebugExtract (slot : String)
    (reget : RState → Option (StyleVal × RState)) (s4 : RState) : Option RState :=
  match reget s4 with
  | none => none
  | some (v1, s5) =>
    match v1 with
    | StyleVal.undef => none
    | StyleVal.ref r1 =>
      let s6 := { s5 with debugMap := recSet s5.debugMap slot (heapGet s5 r1).debugPayload }
      match reget s6 with
      | none => none
      | some (v2, s7) =>
        match v2 with
        | StyleVal.undef => none
        | StyleVal.ref r2 => some (heapStrip s7 r2)

def styleComputePath (c : CallCtx) (slot : String)
    (reget : RState → Option (StyleVal × RState)) (s : RState) :
    Option (StyleVal × RState) :=
  let vs := styleInvokeCore c slot s
  let afterDebug : Option RState :=
    if c.debugEnabled then styleDebugExtract slot reget vs.2 else some vs.2
  match afterDebug with
  | none => none
  | some s8 =>
    let s9 := { s8 with telemetry := telemetryResolveMs c.primaryDisplayName s8.telemetry }
    some ((recGet s9.styleMemo slot).getD StyleVal.undef, s9)

/-- The styles getter (lines 173-208), indexed by fuel for the re-entrant
reads of the debug branch.  Order: truthy cache entry, then truthy per-call
memo, then the compute path. -/
def styleGetF : Nat → CallCtx → String → RState → Option (StyleVal × RState)
  | 0, _, _, _ => none
  | n + 1, c, slot, s =>
    match styleCacheLookup c slot s with
    | some v => some (v, s)
    | none =>
      match recGet s.styleMemo slot with
      | some m =>
        if m.truthy then some (m, s)
        else styleComputePath c slot (fun st => styleGetF n c slot st) s
      | none => styleComputePath c slot (fun st => styleGetF n c slot st) s

/-- The styles getter with enough fuel for the debug branch's re-entrant
reads (which hit the just-written memo/cache and recurse no further). -/
def styleGet (c : CallCtx) (slot : String) (s : RState) : Option (StyleVal × RState) :=
  styleGetF 2 c slot s

/-- The styles setter (lines 162-172): store into the cache when enabled,
then overwrite the per-call memo. -/
def styleSet (c : CallCtx) (slot : String) (v : StyleVal) (s : RState) : RState :=
  let s1 := styleStoreCache c slot v s
  { s1 with styleMemo := recSet s1.styleMemo slot v }

/-- Root composition (lines 241-243, 252-254, 272-275): for slot `root` the
result is `cx(componentClassName, generated, props.className)`; other slots
return the generated value as is (possibly `undefined`). -/
def composeRootOpt (c : CallCtx) (slot : String) (g : Option String) : Option String :=
  if slot == "root" then some (cxList [c.componentClassName, g, c.callerClassName]) else g

/-- Lines 256-281 of the classes getter: the compute path.  Force the style
value through the styles getter, then, when that value is truthy, render it
and store the class (memo, and cache when enabled); finally compose. -/
def classComputePath (c : CallCtx) (slot : String) (s : RState) :
    Option (Option String × RState) :=
  match styleGet c slot s with
  | none => none
  | some (styleObj, s1) =>
    let s2 :=
      match styleObj with
      | StyleVal.ref r =>
        let cls := c.renderer (heapGet s1 r) c.rendererParam
        let sA := { s1 with rendererCalls := bumpCount s1.rendererCalls slot,
                            classMemo := recSet s1.classMemo slot cls }
        classStoreCache c slot cls sA
      | StyleVal.undef => s1
    let res := composeRootOpt c slot (recGet s2.classMemo slot)
    some (res, { s2 with telemetry := telemetryRenderMs c.primaryDisplayName s2.telemetry })

/-- The classes getter (lines 224-282).  With caching enabled, any present
cache entry — the empty string included (line 232) — is a hit: bump the
cache-hit telemetry and return it composed.  Otherwise a truthy per-call
memo is returned composed; otherwise the compute path runs. -/
def classGet (c : CallCtx) (slot : String) (s : RState) :
    Option (Option String × RState) :=
  match classCacheHit c slot s with
  | some v =>
    let s1 := { s with telemetry := telemetryCacheHit c.primaryDisplayName slot s.telemetry }
    some (composeRootOpt c slot (some v), s1)
  | none =>
    match recGet s.classMemo slot with
    | some m =>
      if m != "" then some (composeRootOpt c slot (some m), s)
      else classComputePath c slot s
    | none => classComputePath c slot s

/-- The classes setter (lines 214-223). -/
def classSet (c : CallCtx) (slot : String) (v : String) (s : RState) : RState :=
  let s1 := classStoreCache c slot v s
  { s1 with classMemo := recSet s1.classMemo slot v }

/-- A consumer read of one of the two lazy values of a slot. -/
inductive ReadOp : Type where
  | sread : ReadOp
  | cread : ReadOp
deriving DecidableEq, Repr

/-- Run a sequence of consumer reads against one slot, threading the state;
`none` bubbles up the diverging debug-mode configuration. -/
def runReads (c : CallCtx) (slot : String) : List ReadOp → RState → Option RState
  | [], s => some s
  | op :: rest, s =>
    match op with
    | ReadOp.sread =>
      match styleGet c slot s with
      | none => none
      | some (_, s1) => runReads c slot rest s1
    | ReadOp.cread =>
      match classGet c slot s with
      | none => none
      | some (_, s1) => runReads c slot rest s1

/-- The value an unforced read of the styles getter returns without invoking
the style function: a truthy cache entry (when caching is enabled), else a
truthy per-call memo entry. -/
def styleHit (c : CallCtx) (slot : String) (s : RState) : Option StyleVal :=
  match styleCacheLookup c slot s with
  | some v => some v
  | none =>
    match recGet s.styleMemo slot with
    | some m => if m.truthy then some m else none
    | none => none

/-- The truthy per-call class memo entry (the source tests `if (classes[k])`,
so an empty-string memo is not a hit). -/
def classMemoHit (_c : CallCtx) (slot : String) (s : RState) : Option String :=
  match recGet s.classMemo slot with
  | some m => if m != "" then some m else none
  | none => none

/-- A styles read from this state invokes no style function. -/
def styleReady (c : CallCtx) (slot : String) (s : RState) : Prop :=
  (styleHit c slot s).isSome = true

/-- A classes read from this state invokes no renderer. -/
def classReady (c : CallCtx) (slot : String) (s : RState) : Prop :=
  (classCacheHit c slot s).isSome = true ∨ (classMemoHit c slot s).isSome = true

/-- The root cache-hit counter for a display name (0 when the recorder or
the record is absent). -/
def rootHitsOf (t : Option Telemetry) (nm : String) : Nat :=
  match t with
  | none => 0
  | some tel =>
    match recGet tel.performance nm with
    | none => 0
    | some pr => pr.stylesRootCacheHits

/-- The non-root cache-hit counter for a display name. -/
def slotsHitsOf (t : Option Telemetry) (nm : String) : Nat :=
  match t with
  | none => 0
  | some tel =>
    match recGet tel.performance nm with
    | none => 0
    | some pr => pr.stylesSlotsCacheHits

/-- `telemetry?.performance[name]` is truthy: recorder present and carrying
a record for the name. -/
def perfPresent (t : Option Telemetry) (nm : String) : Bool :=
  match t with
  | none => false
  | some tel => (recGet tel.performance nm).isSome

/-- The class-side frame: these components are untouched by a styles-getter
read, whatever path it takes. -/
def ClassSide (s s2 : RState) : Prop :=
  s2.classesCache = s.classesCache ∧ s2.classMemo = s.classMemo ∧
  s2.rendererCalls = s.rendererCalls ∧
  (∀ nm, rootHitsOf s2.telemetry nm = rootHitsOf s.telemetry nm) ∧
  (∀ nm, slotsHitsOf s2.telemetry nm = slotsHitsOf s.telemetry nm)

/-- The all-empty starting state. -/
def stEmpty : RState :=
  { heap := [], nextRef := 0, stylesCache := [], classesCache := [],
    styleMemo := [], classMemo := [], debugMap := [], telemetry := none,
    styleFnCalls := [], rendererCalls := [] }

def defaultProps : Props :=
  { className := none, design := none, styles := none, vars := Variables.vnone,
    stylesProps := [] }

def defaultStyleParam : StyleParam :=
  { props := defaultProps, vars := [], themeId := 0, rtl := false, disableAnimations := false }

def defaultRendererParam : RendererParam :=
  { direction := "ltr", disableAnimations := false, displayName := "", sanitizeCss := false }

instance : Inhabited CallCtx :=
  ⟨{ cacheEnabled := false, themeId := 0, componentClassName := none, callerClassName := none,
     primaryDisplayName := "", componentCacheKey := "", mergedStyles := [],
     styleParam := defaultStyleParam, rendererParam := defaultRendererParam,
     renderer := fun _ _ => "", debugEnabled := false }⟩

/-- The spec's wording of `noVariableOverrides`: variables are absent, or the
boolean-variable-caching optimization is enabled and every supplied variable
value is boolean, absent or null (a non-plain-object such as a function
supplies no boolean values). -/
def specNoVariableOverrides (bvc : Bool) (vs : Variables) : Bool :=
  (match vs with
    | Variables.vnone => true
    | _ => false) ||
  (bvc && (match vs with
    | Variables.vnone => true
    | Variables.vobj l => l.all (fun p => varValBoolish p.2)
    | Variables.vother => false))

/-- The spec's wording of the per-slot cache key: joined display names, the
serialization of all props except className / styles / design / variables,
the serialization of variables only when the boolean-variable optimization
is also active, the rtl flag and the disable-animations flag, with the slot
name appended; empty base components when caching is disabled. -/
def specSlotCacheKey (opts : ResolveStylesOptions) (cacheEnabled : Bool) (slot : String) :
    String :=
  (if cacheEnabled then
    String.intercalate ":" opts.allDisplayNames ++ ":" ++
      stringifyProps opts.props.stylesProps ++ ":" ++
      (if opts.performance.enableBooleanVariablesCaching then
        stringifyVariables opts.props.vars
      else "") ++ ":" ++ boolStr opts.rtl ++ boolStr opts.disableAnimations
  else "") ++ slot

/-- The state after a class-cache-hit read: only the telemetry changes. -/
def cacheHitState (c : CallCtx) (slot : String) (s : RState) : RState :=
  { s with telemetry := telemetryCacheHit c.primaryDisplayName slot s.telemetry }

/-- Concrete fixtures used by the witnesses and counterexamples below. -/
def exExt : Externals :=
  { mergeMany := fun l => l.headD [], mergeOverrides := fun m _ _ => m }

def exPerfOff : PerformanceFlags :=
  { enableStylesCaching := false, enableBooleanVariablesCaching := false,
    enableSanitizeCssPlugin := false }

def exPerfOn : PerformanceFlags :=
  { enableStylesCaching := true, enableBooleanVariablesCaching := false,
    enableSanitizeCssPlugin := false }

def exPerfMisconfig : PerformanceFlags :=
  { enableStylesCaching := false, enableBooleanVariablesCaching := true,
    enableSanitizeCssPlugin := false }

def exPropsPlain : Props :=
  { className := some "custom", design := none, styles := none,
    vars := Variables.vnone, stylesProps := [] }

def exPropsNonBool : Props :=
  { className := none, design := none, styles := none,
    vars := Variables.vobj [("color", VarVal.vstr "red")], stylesProps := [] }

def exRootSet : StyleSet :=
  [("root", fun _ => some { decls := [("color", "red")], debugPayload := none }),
   ("icon", fun _ => some { decls := [("width", "1")], debugPayload := none })]

def exSetDbg : StyleSet :=
  [("root", fun _ => some { decls := [("a", "b")], debugPayload := some ["dbg-fragment"] })]

def exSetUndef : StyleSet :=
  [("root", fun _ => none), ("icon", fun _ => none)]

def exTheme : Theme := { id := 1, componentStyles := [("Button", exRootSet)] }

def exThemeDbg : Theme := { id := 2, componentStyles := [("Button", exSetDbg)] }

def exThemeUndef : Theme := { id := 3, componentStyles := [("Button", exSetUndef)] }

def exThemeEmpty : Theme := { id := 4, componentStyles := [] }

def exOpts (theme : Theme) (flags : PerformanceFlags) (props : Props)
    (renderer : StyleObject → RendererParam → String) : ResolveStylesOptions :=
  { allDisplayNames := ["Button"], className := some "ui-button", theme := theme,
    primaryDisplayName := "Button", props := props, rtl := false,
    disableAnimations := false, renderer := renderer, performance := flags }

def exEnvProd : Env := { production := true, isDebugEnabled := false }

def exEnvDev : Env := { production := false, isDebugEnabled := false }

def exEnvDebug : Env := { production := false, isDebugEnabled := true }

def exCtxOf (env : Env) (opts : ResolveStylesOptions) : CallCtx :=
  match resolveStyles exExt env opts [] stEmpty with
  | Except.ok p => p.1
  | Except.error _ => default

/-- Caching-disabled call whose renderer yields the empty string. -/
def exCtxC1 : CallCtx :=
  exCtxOf exEnvProd (exOpts exTheme exPerfOff exPropsPlain (fun _ _ => ""))

/-- Caching-disabled call with component class `ui-button`, caller class
`custom` and generated class `gen-123`. -/
def c7ctx : CallCtx :=
  exCtxOf exEnvProd (exOpts exTheme exPerfOff exPropsPlain (fun _ _ => "gen-123"))

/-- The outcome of reading the root class in `c7ctx` from the empty state. -/
def c7out : Option String × RState :=
  (classGet c7ctx "root" stEmpty).getD (none, stEmpty)

def exOptsOn : ResolveStylesOptions :=
  exOpts exTheme exPerfOn exPropsPlain (fun _ _ => "gen-123")

/-- Caching-enabled call. -/
def exCtxOn : CallCtx := exCtxOf exEnvProd exOptsOn

def exPairOn : CallCtx × RState :=
  (resolveStyles exExt exEnvProd exOptsOn [] stEmpty).toOption.getD (default, stEmpty)

def exPerfBoth : PerformanceFlags :=
  { enableStylesCaching := true, enableBooleanVariablesCaching := true,
    enableSanitizeCssPlugin := false }

/-- A call with both caching flags on but a non-boolean variable value. -/
def exOptsC2 : ResolveStylesOptions :=
  exOpts exTheme exPerfBoth exPropsNonBool (fun _ _ => "x")

def exPairC2 : CallCtx × RState :=
  (resolveStyles exExt exEnvProd exOptsC2 [] stEmpty).toOption.getD (default, stEmpty)

/-- The misconfigured call of C6. -/
def exOptsMis : ResolveStylesOptions :=
  exOpts exTheme exPerfMisconfig exPropsPlain (fun _ _ => "x")

/-- Two display names, neither declared by the theme. -/
def exOptsC9 : ResolveStylesOptions :=
  { allDisplayNames := ["Alpha", "Beta"], className := none, theme := exThemeEmpty,
    primaryDisplayName := "Alpha", props := exPropsPlain, rtl := false,
    disableAnimations := false, renderer := fun _ _ => "x", performance := exPerfOff }

/-- The root style object carrying a debug payload. -/
def exDbgObj : StyleObject :=
  { decls := [("a", "b")], debugPayload := some ["dbg-fragment"] }



/-- Debug-mode call whose root style function carries a debug payload. -/
def exCtxDbg : CallCtx :=
  exCtxOf exEnvDebug (exOpts exThemeDbg exPerfOff exPropsPlain (fun _ _ => "gen-123"))

/-- Caching-disabled call whose style functions return `undefined`. -/
def exCtxUndef : CallCtx :=
  exCtxOf exEnvProd (exOpts exThemeUndef exPerfOff exPropsPlain (fun _ _ => "gen-123"))

/-- The outcome of reading the `icon` style in `exCtxUndef`. -/
def c10run : StyleVal × RState :=
  (styleGet exCtxUndef "icon" stEmpty).getD (StyleVal.undef, stEmpty)

def exZeroPerf : PerfRecord :=
  { stylesRootCacheHits := 0, stylesSlotsCacheHits := 0,
    msResolveStylesTotal := 0, msRenderStylesTotal := 0 }

/-- A telemetry recorder whose `enabled` flag is off but which carries a
performance record for the primary display name. -/
def exTelOff : Telemetry :=
  { enabled := false, performance := [("Button", exZeroPerf)] }

def stTelOff : RState :=
  { stEmpty with telemetry := some exTelOff }

/-- A state holding a pre-seeded class cache entry while the telemetry
recorder is disabled. -/
def c5state : RState := classSet exCtxOn "root" "gen-123" stTelOff

def c5out : Option String × RState :=
  (classGet exCtxOn "root" c5state).getD (none, c5state)

/-- The state after a mixed read sequence against the empty-string-renderer
caching-disabled call: two class reads re-invoke the renderer, yet the
style function still runs only once. -/
def c1mix : RState :=
  (runReads exCtxC1 "root" [ReadOp.cread, ReadOp.cread, ReadOp.sread] stEmpty).getD stEmpty

theorem aGet_aSet_self {κ α : Type} [BEq κ] [LawfulBEq κ] (l : List (κ × α)) (k : κ) (v : α) :
    aGet (aSet l k v) k = some v := by
  simp [aGet, aSet]

theorem aGet_aSet_ne {κ α : Type} [BEq κ] [LawfulBEq κ] (l : List (κ × α)) (k k' : κ) (v : α)
    (h : k' ≠ k) : aGet (aSet l k v) k' = aGet l k' := by
  have h2 : (k == k') = false := by
    simp only [beq_eq_false_iff_ne, ne_eq]
    exact fun hh => h hh.symm
  simp [aGet, aSet, List.find?, h2]

theorem recGet_recSet_self {α : Type} (l : List (String × α)) (k : String) (v : α) :
    recGet (recSet l k v) k = some v := aGet_aSet_self l k v

theorem recGet_recSet_ne {α : Type} (l : List (String × α)) (k k' : String) (v : α)
    (h : k' ≠ k) : recGet (recSet l k v) k' = recGet l k' := aGet_aSet_ne l k k' v h

theorem wmGet_wmSet_self {α : Type} (m : List (Nat × α)) (k : Nat) (v : α) :
    wmGet (wmSet m k v) k = some v := aGet_aSet_self m k v

theorem wmGet_wmSet_ne {α : Type} (m : List (Nat × α)) (k k' : Nat) (v : α)
    (h : k' ≠ k) : wmGet (wmSet m k v) k' = wmGet m k' := aGet_aSet_ne m k k' v h

theorem getCount_bump_self (m : List (String × Nat)) (k : String) :
    getCount (bumpCount m k) k = getCount m k + 1 := by
  simp [getCount, bumpCount, recGet_recSet_self]

theorem getCount_bump_ne (m : List (String × Nat)) (k k' : String) (h : k' ≠ k) :
    getCount (bumpCount m k) k' = getCount m k' := by
  simp [getCount, bumpCount, recGet_recSet_ne _ _ _ _ h]

theorem aGet_map_strip (l : List (Nat × StyleObject)) (r : Nat) :
    (aGet (l.map fun p =>
        if p.1 == r then (p.1, { p.2 with debugPayload := none }) else p) r).getD
      emptyStyleObject
      = { (aGet l r).getD emptyStyleObject with debugPayload := none } := by
  induction l with
  | nil => rfl
  | cons hd tl ih =>
    by_cases hr : hd.1 = r
    · simp [aGet, List.find?, hr]
    · have h2 : (hd.1 == r) = false := by
        simp only [beq_eq_false_iff_ne, ne_eq]; exact hr
      simpa [aGet, List.find?, h2] using ih

theorem heapGet_strip_self (s : RState) (r : Nat) :
    heapGet (heapStrip s r) r = { heapGet s r with debugPayload := none } :=
  aGet_map_strip s.heap r

theorem rootHitsOf_resolveMs (p : String) (t : Option Telemetry) (nm : String) :
    rootHitsOf (telemetryResolveMs p t) nm = rootHitsOf t nm := by
  cases t with
  | none => rfl
  | some tel =>
    by_cases he : tel.enabled
    · cases hp : recGet tel.performance p with
      | none => simp [telemetryResolveMs, he, hp, rootHitsOf]
      | some pr =>
        by_cases hnm : nm = p
        · subst hnm
          simp [telemetryResolveMs, he, hp, rootHitsOf, recGet_recSet_self]
        · simp [telemetryResolveMs, he, hp, rootHitsOf, recGet_recSet_ne _ _ _ _ hnm]
    · simp [telemetryResolveMs, he, rootHitsOf]

theorem slotsHitsOf_resolveMs (p : String) (t : Option Telemetry) (nm : String) :
    slotsHitsOf (telemetryResolveMs p t) nm = slotsHitsOf t nm := by
  cases t with
  | none => rfl
  | some tel =>
    by_cases he : tel.enabled
    · cases hp : recGet tel.performance p with
      | none => simp [telemetryResolveMs, he, hp, slotsHitsOf]
      | some pr =>
        by_cases hnm : nm = p
        · subst hnm
          simp [telemetryResolveMs, he, hp, slotsHitsOf, recGet_recSet_self]
        · simp [telemetryResolveMs, he, hp, slotsHitsOf, recGet_recSet_ne _ _ _ _ hnm]
    · simp [telemetryResolveMs, he, slotsHitsOf]

theorem rootHitsOf_renderMs (p : String) (t : Option Telemetry) (nm : String) :
    rootHitsOf (telemetryRenderMs p t) nm = rootHitsOf t nm := by
  cases t with
  | none => rfl
  | some tel =>
    by_cases he : tel.enabled
    · cases hp : recGet tel.performance p with
      | none => simp [telemetryRenderMs, he, hp, rootHitsOf]
      | some pr =>
        by_cases hnm : nm = p
        · subst hnm
          simp [telemetryRenderMs, he, hp, rootHitsOf, recGet_recSet_self]
        · simp [telemetryRenderMs, he, hp, rootHitsOf, recGet_recSet_ne _ _ _ _ hnm]
    · simp [telemetryRenderMs, he, rootHitsOf]

theorem slotsHitsOf_renderMs (p : String) (t : Option Telemetry) (nm : String) :
    slotsHitsOf (telemetryRenderMs p t) nm = slotsHitsOf t nm := by
  cases t with
  | none => rfl
  | some tel =>
    by_cases he : tel.enabled
    · cases hp : recGet tel.performance p with
      | none => simp [telemetryRenderMs, he, hp, slotsHitsOf]
      | some pr =>
        by_cases hnm : nm = p
        · subst hnm
          simp [telemetryRenderMs, he, hp, slotsHitsOf, recGet_recSet_self]
        · simp [telemetryRenderMs, he, hp, slotsHitsOf, recGet_recSet_ne _ _ _ _ hnm]
    · simp [telemetryRenderMs, he, slotsHitsOf]

theorem rootHitsOf_cacheHit (p slot : String) (t : Option Telemetry) (nm : String) :
    rootHitsOf (telemetryCacheHit p slot t) nm =
      rootHitsOf t nm +
        (if perfPresent t p && (nm == p) && (slot == "root") then 1 else 0) := by
  cases t with
  | none => rfl
  | some tel =>
    cases hp : recGet tel.performance p with
    | none => simp [telemetryCacheHit, hp, rootHitsOf, perfPresent]
    | some pr =>
      by_cases hnm : nm = p
      · subst hnm
        by_cases hr : slot = "root"
        · subst hr
          simp [telemetryCacheHit, hp, rootHitsOf, perfPresent, recGet_recSet_self]
        · have hs : (slot == "root") = false := by
            simp only [beq_eq_false_iff_ne, ne_eq]; exact hr
          simp [telemetryCacheHit, hp, rootHitsOf, perfPresent, recGet_recSet_self, hs]
      · simp [telemetryCacheHit, hp, rootHitsOf, perfPresent,
          recGet_recSet_ne _ _ _ _ hnm, hnm]

theorem slotsHitsOf_cacheHit (p slot : String) (t : Option Telemetry) (nm : String) :
    slotsHitsOf (telemetryCacheHit p slot t) nm =
      slotsHitsOf t nm +
        (if perfPresent t p && (nm == p) && !(slot == "root") then 1 else 0) := by
  cases t with
  | none => rfl
  | some tel =>
    cases hp : recGet tel.performance p with
    | none => simp [telemetryCacheHit, hp, slotsHitsOf, perfPresent]
    | some pr =>
      by_cases hnm : nm = p
      · subst hnm
        by_cases hr : slot = "root"
        · subst hr
          simp [telemetryCacheHit, hp, slotsHitsOf, perfPresent, recGet_recSet_self]
        · have hs : (slot == "root") = false := by
            simp only [beq_eq_false_iff_ne, ne_eq]; exact hr
          simp [telemetryCacheHit, hp, slotsHitsOf, perfPresent, recGet_recSet_self, hs]
      · simp [telemetryCacheHit, hp, slotsHitsOf, perfPresent,
          recGet_recSet_ne _ _ _ _ hnm, hnm]

@[simp] theorem styleStoreCache_styleMemo (c : CallCtx) (slot : String) (v : StyleVal)
    (s : RState) : (styleStoreCache c slot v s).styleMemo = s.styleMemo := by
  unfold styleStoreCache; split <;> rfl

@[simp] theorem styleStoreCache_classMemo (c : CallCtx) (slot : String) (v : StyleVal)
    (s : RState) : (styleStoreCache c slot v s).classMemo = s.classMemo := by
  unfold styleStoreCache; split <;> rfl

@[simp] theorem styleStoreCache_classesCache (c : CallCtx) (slot : String) (v : StyleVal)
    (s : RState) : (styleStoreCache c slot v s).classesCache = s.classesCache := by
  unfold styleStoreCache; split <;> rfl

@[simp] theorem styleStoreCache_rendererCalls (c : CallCtx) (slot : String) (v : StyleVal)
    (s : RState) : (styleStoreCache c slot v s).rendererCalls = s.rendererCalls := by
  unfold styleStoreCache; split <;> rfl

@[simp] theorem styleStoreCache_styleFnCalls (c : CallCtx) (slot : String) (v : StyleVal)
    (s : RState) : (styleStoreCache c slot v s).styleFnCalls = s.styleFnCalls := by
  unfold styleStoreCache; split <;> rfl

@[simp] theorem styleStoreCache_telemetry (c : CallCtx) (slot : String) (v : StyleVal)
    (s : RState) : (styleStoreCache c slot v s).telemetry = s.telemetry := by
  unfold styleStoreCache; split <;> rfl

@[simp] theorem styleStoreCache_heap (c : CallCtx) (slot : String) (v : StyleVal)
    (s : RState) : (styleStoreCache c slot v s).heap = s.heap := by
  unfold styleStoreCache; split <;> rfl

@[simp] theorem styleStoreCache_nextRef (c : CallCtx) (slot : String) (v : StyleVal)
    (s : RState) : (styleStoreCache c slot v s).nextRef = s.nextRef := by
  unfold styleStoreCache; split <;> rfl

@[simp] theorem styleStoreCache_debugMap (c : CallCtx) (slot : String) (v : StyleVal)
    (s : RState) : (styleStoreCache c slot v s).debugMap = s.debugMap := by
  unfold styleStoreCache; split <;> rfl

theorem styleStoreCache_self (c : CallCtx) (slot : String) (v : StyleVal) (s : RState)
    (h : c.cacheEnabled = true) :
    recGet (stylesCacheRec c (styleStoreCache c slot v s)) (slotKey c slot) = some v := by
  simp [styleStoreCache, h, stylesCacheRec, wmGet_wmSet_self, recGet_recSet_self]

theorem styleStoreCache_disabled (c : CallCtx) (slot : String) (v : StyleVal) (s : RState)
    (h : c.cacheEnabled = false) : styleStoreCache c slot v s = s := by
  simp [styleStoreCache, h]

@[simp] theorem classStoreCache_styleMemo (c : CallCtx) (slot : String) (v : String)
    (s : RState) : (classStoreCache c slot v s).styleMemo = s.styleMemo := by
  unfold classStoreCache; split <;> rfl

@[simp] theorem classStoreCache_classMemo (c : CallCtx) (slot : String) (v : String)
    (s : RState) : (classStoreCache c slot v s).classMemo = s.classMemo := by
  unfold classStoreCache; split <;> rfl

@[simp] theorem classStoreCache_stylesCache (c : CallCtx) (slot : String) (v : String)
    (s : RState) : (classStoreCache c slot v s).stylesCache = s.stylesCache := by
  unfold classStoreCache; split <;> rfl

@[simp] theorem classStoreCache_rendererCalls (c : CallCtx) (slot : String) (v : String)
    (s : RState) : (classStoreCache c slot v s).rendererCalls = s.rendererCalls := by
  unfold classStoreCache; split <;> rfl

@[simp] theorem classStoreCache_styleFnCalls (c : CallCtx) (slot : String) (v : String)
    (s : RState) : (classStoreCache c slot v s).styleFnCalls = s.styleFnCalls := by
  unfold classStoreCache; split <;> rfl

@[simp] theorem classStoreCache_telemetry (c : CallCtx) (slot : String) (v : String)
    (s : RState) : (classStoreCache c slot v s).telemetry = s.telemetry := by
  unfold classStoreCache; split <;> rfl

@[simp] theorem classStoreCache_heap (c : CallCtx) (slot : String) (v : String)
    (s : RState) : (classStoreCache c slot v s).heap = s.heap := by
  unfold classStoreCache; split <;> rfl

@[simp] theorem classStoreCache_nextRef (c : CallCtx) (slot : String) (v : String)
    (s : RState) : (classStoreCache c slot v s).nextRef = s.nextRef := by
  unfold classStoreCache; split <;> rfl

@[simp] theorem classStoreCache_debugMap (c : CallCtx) (slot : String) (v : String)
    (s : RState) : (classStoreCache c slot v s).debugMap = s.debugMap := by
  unfold classStoreCache; split <;> rfl

theorem classStoreCache_self (c : CallCtx) (slot : String) (v : String) (s : RState)
    (h : c.cacheEnabled = true) :
    recGet (classesCacheRec c (classStoreCache c slot v s)) (slotKey c slot) = some v := by
  simp [classStoreCache, h, classesCacheRec, wmGet_wmSet_self, recGet_recSet_self]

theorem classStoreCache_disabled (c : CallCtx) (slot : String) (v : String) (s : RState)
    (h : c.cacheEnabled = false) : classStoreCache c slot v s = s := by
  simp [classStoreCache, h]

theorem styleCacheLookup_disabled (c : CallCtx) (slot : String) (s : RState)
    (h : c.cacheEnabled = false) : styleCacheLookup c slot s = none := by
  simp [styleCacheLookup, h]

theorem styleGetF_hit (n : Nat) (c : CallCtx) (slot : String) (s : RState) (v : StyleVal)
    (h : styleHit c slot s = some v) : styleGetF (n + 1) c slot s = some (v, s) := by
  unfold styleHit at h
  cases hc : styleCacheLookup c slot s with
  | some w =>
    rw [hc] at h
    cases h
    simp [styleGetF, hc]
  | none =>
    rw [hc] at h
    cases hm : recGet s.styleMemo slot with
    | none => simp [hm] at h
    | some m =>
      rw [hm] at h
      cases ht : m.truthy with
      | false => simp [ht] at h
      | true =>
        simp only [ht, if_true] at h
        cases h
        simp [styleGetF, hc, hm, ht]

theorem styleGetF_miss (n : Nat) (c : CallCtx) (slot : String) (s : RState)
    (h : styleHit c slot s = none) :
    styleGetF (n + 1) c slot s =
      styleComputePath c slot (fun st => styleGetF n c slot st) s := by
  unfold styleHit at h
  cases hc : styleCacheLookup c slot s with
  | some w => simp [hc] at h
  | none =>
    cases hm : recGet s.styleMemo slot with
    | none => simp [styleGetF, hc, hm]
    | some m =>
      rw [hc, hm] at h
      cases ht : m.truthy with
      | false => simp [styleGetF, hc, hm, ht]
      | true => simp [ht] at h

theorem classGet_cacheHit (c : CallCtx) (slot : String) (s : RState) (v : String)
    (h : classCacheHit c slot s = some v) :
    classGet c slot s = some (composeRootOpt c slot (some v),
      { s with telemetry := telemetryCacheHit c.primaryDisplayName slot s.telemetry }) := by
  simp [classGet, h]

theorem classGet_memoHit (c : CallCtx) (slot : String) (s : RState) (m : String)
    (hc : classCacheHit c slot s = none) (hm : classMemoHit c slot s = some m) :
    classGet c slot s = some (composeRootOpt c slot (some m), s) := by
  unfold classMemoHit at hm
  cases hmm : recGet s.classMemo slot with
  | none => rw [hmm] at hm; cases hm
  | some m2 =>
    rw [hmm] at hm
    cases hne : (m2 != "") with
    | false => simp [hne] at hm
    | true =>
      simp only [hne, if_true] at hm
      cases hm
      simp [classGet, hc, hmm, hne]

theorem classGet_miss (c : CallCtx) (slot : String) (s : RState)
    (hc : classCacheHit c slot s = none) (hm : classMemoHit c slot s = none) :
    classGet c slot s = classComputePath c slot s := by
  unfold classMemoHit at hm
  cases hmm : recGet s.classMemo slot with
  | none => simp [classGet, hc, hmm]
  | some m2 =>
    rw [hmm] at hm
    cases hne : (m2 != "") with
    | false => simp [classGet, hc, hmm, hne]
    | true => simp [hne] at hm

theorem classSide_refl (s : RState) : ClassSide s s :=
  ⟨rfl, rfl, rfl, fun _ => rfl, fun _ => rfl⟩

theorem classSide_trans {s1 s2 s3 : RState} (h1 : ClassSide s1 s2) (h2 : ClassSide s2 s3) :
    ClassSide s1 s3 := by
  obtain ⟨a1, b1, c1, d1, e1⟩ := h1
  obtain ⟨a2, b2, c2, d2, e2⟩ := h2
  exact ⟨a2.trans a1, b2.trans b1, c2.trans c1,
    fun nm => (d2 nm).trans (d1 nm), fun nm => (e2 nm).trans (e1 nm)⟩

theorem classSide_invokeCore (c : CallCtx) (slot : String) (s : RState) :
    ClassSide s (styleInvokeCore c slot s).2 := by
  unfold styleInvokeCore
  cases slotFn c slot c.styleParam <;>
    exact ⟨by simp, by simp, by simp, fun _ => by simp, fun _ => by simp⟩

theorem classSide_resolveMs (c : CallCtx) (s : RState) :
    ClassSide s { s with telemetry := telemetryResolveMs c.primaryDisplayName s.telemetry } :=
  ⟨rfl, rfl, rfl, fun nm => rootHitsOf_resolveMs _ _ nm, fun nm => slotsHitsOf_resolveMs _ _ nm⟩

theorem classSide_debugExtract (slot : String)
    (reget : RState → Option (StyleVal × RState)) (s4 s8 : RState)
    (hre : ∀ t w t2, reget t = some (w, t2) → ClassSide t t2)
    (h : styleDebugExtract slot reget s4 = some s8) : ClassSide s4 s8 := by
  unfold styleDebugExtract at h
  cases h1 : reget s4 with
  | none => rw [h1] at h; cases h
  | some p1 =>
    rw [h1] at h
    obtain ⟨v1, s5⟩ := p1
    cases v1 with
    | undef => cases h
    | ref r1 =>
      have hs5 : ClassSide s4 s5 := hre _ _ _ h1
      cases h2 : reget { s5 with debugMap := recSet s5.debugMap slot (heapGet s5 r1).debugPayload } with
      | none => simp only [h2] at h; cases h
      | some p2 =>
        simp only [h2] at h
        obtain ⟨v2, s7⟩ := p2
        cases v2 with
        | undef => cases h
        | ref r2 =>
          cases h
          have hs6 : ClassSide s5 { s5 with debugMap := recSet s5.debugMap slot (heapGet s5 r1).debugPayload } :=
            ⟨rfl, rfl, rfl, fun _ => rfl, fun _ => rfl⟩
          have hs7 : ClassSide { s5 with debugMap := recSet s5.debugMap slot (heapGet s5 r1).debugPayload } s7 :=
            hre _ _ _ h2
          have hstrip : ClassSide s7 (heapStrip s7 r2) :=
            ⟨rfl, rfl, rfl, fun _ => rfl, fun _ => rfl⟩
          exact classSide_trans hs5 (classSide_trans hs6 (classSide_trans hs7 hstrip))

theorem classSide_computePath (c : CallCtx) (slot : String)
    (reget : RState → Option (StyleVal × RState)) (s : RState) (v : StyleVal) (s2 : RState)
    (hre : ∀ t w t2, reget t = some (w, t2) → ClassSide t t2)
    (h : styleComputePath c slot reget s = some (v, s2)) : ClassSide s s2 := by
  unfold styleComputePath at h
  have hcore : ClassSide s (styleInvokeCore c slot s).2 := classSide_invokeCore c slot s
  cases hd : c.debugEnabled with
  | false =>
    simp only [hd, if_neg, Bool.false_eq_true, not_false_iff] at h
    cases h
    exact classSide_trans hcore (classSide_resolveMs c _)
  | true =>
    simp only [hd, if_pos] at h
    cases hx : styleDebugExtract slot reget (styleInvokeCore c slot s).2 with
    | none => rw [hx] at h; cases h
    | some s8 =>
      rw [hx] at h
      cases h
      exact classSide_trans hcore
        (classSide_trans (classSide_debugExtract slot reget _ _ hre hx) (classSide_resolveMs c _))

theorem styleGetF_classSide : ∀ (n : Nat) (c : CallCtx) (slot : String) (s : RState)
    (v : StyleVal) (s2 : RState), styleGetF n c slot s = some (v, s2) → ClassSide s s2 := by
  intro n
  induction n with
  | zero => intro c slot s v s2 h; cases h
  | succ n ih =>
    intro c slot s v s2 h
    cases hh : styleHit c slot s with
    | some w =>
      rw [styleGetF_hit n c slot s w hh] at h
      cases h
      exact classSide_refl s
    | none =>
      rw [styleGetF_miss n c slot s hh] at h
      exact classSide_computePath c slot _ s v s2 (fun t w t2 hre => ih c slot t w t2 hre) h

theorem styleGet_classSide (c : CallCtx) (slot : String) (s : RState) (v : StyleVal)
    (s2 : RState) (h : styleGet c slot s = some (v, s2)) : ClassSide s s2 :=
  styleGetF_classSide 2 c slot s v s2 h

@[simp] theorem heapStrip_styleMemo (s : RState) (r : Nat) :
    (heapStrip s r).styleMemo = s.styleMemo := rfl

@[simp] theorem heapStrip_styleFnCalls (s : RState) (r : Nat) :
    (heapStrip s r).styleFnCalls = s.styleFnCalls := rfl

@[simp] theorem heapStrip_stylesCache (s : RState) (r : Nat) :
    (heapStrip s r).stylesCache = s.stylesCache := rfl

@[simp] theorem heapStrip_debugMap (s : RState) (r : Nat) :
    (heapStrip s r).debugMap = s.debugMap := rfl

@[simp] theorem heapStrip_telemetry (s : RState) (r : Nat) :
    (heapStrip s r).telemetry = s.telemetry := rfl

@[simp] theorem heapStrip_nextRef (s : RState) (r : Nat) :
    (heapStrip s r).nextRef = s.nextRef := rfl

theorem styleInvokeCore_some (c : CallCtx) (slot : String) (s : RState) (o : StyleObject)
    (hfn : slotFn c slot c.styleParam = some o) :
    styleInvokeCore c slot s = (StyleVal.ref s.nextRef,
      styleStoreCache c slot (StyleVal.ref s.nextRef)
        { s with styleFnCalls := bumpCount s.styleFnCalls slot,
                 heap := (s.nextRef, o) :: s.heap, nextRef := s.nextRef + 1,
                 styleMemo := recSet s.styleMemo slot (StyleVal.ref s.nextRef) }) := by
  simp [styleInvokeCore, hfn]

theorem styleInvokeCore_none (c : CallCtx) (slot : String) (s : RState)
    (hfn : slotFn c slot c.styleParam = none) :
    styleInvokeCore c slot s = (StyleVal.undef,
      styleStoreCache c slot StyleVal.undef
        { s with styleFnCalls := bumpCount s.styleFnCalls slot,
                 styleMemo := recSet s.styleMemo slot StyleVal.undef }) := by
  simp [styleInvokeCore, hfn]

theorem styleHit_truthy (c : CallCtx) (slot : String) (s : RState) (v : StyleVal)
    (h : styleHit c slot s = some v) : v.truthy = true := by
  unfold styleHit at h
  cases hc : styleCacheLookup c slot s with
  | some w =>
    rw [hc] at h
    cases h
    unfold styleCacheLookup at hc
    cases he : c.cacheEnabled with
    | false => rw [he] at hc; simp at hc
    | true =>
      rw [he] at hc
      simp only [if_true] at hc
      cases hcc : recGet (stylesCacheRec c s) (slotKey c slot) with
      | none => rw [hcc] at hc; cases hc
      | some w2 =>
        rw [hcc] at hc
        cases ht : w2.truthy with
        | false => simp [ht] at hc
        | true => simp only [ht, if_true] at hc; cases hc; exact ht
  | none =>
    rw [hc] at h
    cases hm : recGet s.styleMemo slot with
    | none => rw [hm] at h; cases h
    | some m =>
      rw [hm] at h
      cases ht : m.truthy with
      | false => simp [ht] at h
      | true => simp only [ht, if_true] at h; cases h; exact ht

theorem styleHit_store_memo (c : CallCtx) (slot : String) (v : StyleVal) (s : RState)
    (hv : v.truthy = true)
    (hmemo : recGet s.styleMemo slot = some v)
    (hcache : c.cacheEnabled = true →
      recGet (stylesCacheRec c s) (slotKey c slot) = some v) :
    styleHit c slot s = some v := by
  unfold styleHit styleCacheLookup
  cases he : c.cacheEnabled with
  | true => simp [hcache he, hv]
  | false => simp [hmemo, hv]

theorem aGet_cons_self {κ α : Type} [BEq κ] [LawfulBEq κ] (l : List (κ × α)) (k : κ) (v : α) :
    aGet ((k, v) :: l) k = some v := aGet_aSet_self l k v

theorem styleGetF_invoke (n : Nat) (c : CallCtx) (slot : String) (s : RState) (o : StyleObject)
    (hmiss : styleHit c slot s = none)
    (hfn : slotFn c slot c.styleParam = some o) :
    ∃ s2, styleGetF (n + 2) c slot s = some (StyleVal.ref s.nextRef, s2) ∧
      s2.styleFnCalls = bumpCount s.styleFnCalls slot ∧
      s2.nextRef = s.nextRef + 1 ∧
      recGet s2.styleMemo slot = some (StyleVal.ref s.nextRef) ∧
      (c.cacheEnabled = true →
        recGet (stylesCacheRec c s2) (slotKey c slot) = some (StyleVal.ref s.nextRef)) ∧
      heapGet s2 s.nextRef =
        (if c.debugEnabled then { o with debugPayload := none } else o) ∧
      (c.debugEnabled = true → recGet s2.debugMap slot = some o.debugPayload) ∧
      styleHit c slot s2 = some (StyleVal.ref s.nextRef) := by
  have hstep := styleGetF_miss (n + 1) c slot s hmiss
  rw [show n + 1 + 1 = n + 2 from rfl] at hstep
  unfold styleComputePath at hstep
  rw [styleInvokeCore_some c slot s o hfn] at hstep
  simp only at hstep
  rcases Bool.eq_false_or_eq_true c.debugEnabled with hd | hd
  case inr =>
    rw [hd] at hstep
    simp only [Bool.false_eq_true, if_false, styleStoreCache_styleMemo,
      recGet_recSet_self, Option.getD_some] at hstep
    refine ⟨_, hstep, ?_, ?_, ?_, ?_, ?_, ?_, ?_⟩
    · simp
    · simp
    · simp [recGet_recSet_self]
    · intro hce
      simpa using styleStoreCache_self c slot (StyleVal.ref s.nextRef) _ hce
    · simp [hd, heapGet, aGet_cons_self]
    · intro hdd; rw [hdd] at hd; cases hd
    · apply styleHit_store_memo
      · rfl
      · simp [recGet_recSet_self]
      · intro hce
        simpa using styleStoreCache_self c slot (StyleVal.ref s.nextRef) _ hce
  case inl =>
    rw [hd] at hstep
    simp only [eq_self_iff_true, if_true] at hstep
    have hhit4 : styleHit c slot
        (styleStoreCache c slot (StyleVal.ref s.nextRef)
          { s with styleFnCalls := bumpCount s.styleFnCalls slot,
                   heap := (s.nextRef, o) :: s.heap, nextRef := s.nextRef + 1,
                   styleMemo := recSet s.styleMemo slot (StyleVal.ref s.nextRef) }) =
        some (StyleVal.ref s.nextRef) := by
      apply styleHit_store_memo
      · rfl
      · simp [recGet_recSet_self]
      · intro hce
        simpa using styleStoreCache_self c slot (StyleVal.ref s.nextRef) _ hce
    rw [styleDebugExtract] at hstep
    rw [styleGetF_hit n c slot _ _ hhit4] at hstep
    simp only at hstep
    have hhit6 : styleHit c slot
        { (styleStoreCache c slot (StyleVal.ref s.nextRef)
            { s with styleFnCalls := bumpCount s.styleFnCalls slot,
                     heap := (s.nextRef, o) :: s.heap, nextRef := s.nextRef + 1,
                     styleMemo := recSet s.styleMemo slot (StyleVal.ref s.nextRef) }) with
          debugMap := recSet (styleStoreCache c slot (StyleVal.ref s.nextRef)
            { s with styleFnCalls := bumpCount s.styleFnCalls slot,
                     heap := (s.nextRef, o) :: s.heap, nextRef := s.nextRef + 1,
                     styleMemo := recSet s.styleMemo slot (StyleVal.ref s.nextRef) }).debugMap
            slot (heapGet (styleStoreCache c slot (StyleVal.ref s.nextRef)
              { s with styleFnCalls := bumpCount s.styleFnCalls slot,
                       heap := (s.nextRef, o) :: s.heap, nextRef := s.nextRef + 1,
                       styleMemo := recSet s.styleMemo slot (StyleVal.ref s.nextRef) })
              s.nextRef).debugPayload } =
        some (StyleVal.ref s.nextRef) := by
      apply styleHit_store_memo
      · rfl
      · simp [recGet_recSet_self]
      · intro hce
        have h1 := styleStoreCache_self c slot (StyleVal.ref s.nextRef)
          { s with styleFnCalls := bumpCount s.styleFnCalls slot,
                   heap := (s.nextRef, o) :: s.heap, nextRef := s.nextRef + 1,
                   styleMemo := recSet s.styleMemo slot (StyleVal.ref s.nextRef) } hce
        simpa [stylesCacheRec] using h1
    rw [styleGetF_hit n c slot _ _ hhit6] at hstep
    simp only [heapStrip_styleMemo, styleStoreCache_styleMemo,
      recGet_recSet_self, Option.getD_some] at hstep
    refine ⟨_, hstep, ?_, ?_, ?_, ?_, ?_, ?_, ?_⟩
    · simp
    · simp
    · simp [recGet_recSet_self]
    · intro hce
      simpa [stylesCacheRec] using styleStoreCache_self c slot (StyleVal.ref s.nextRef)
        { s with styleFnCalls := bumpCount s.styleFnCalls slot,
                 heap := (s.nextRef, o) :: s.heap, nextRef := s.nextRef + 1,
                 styleMemo := recSet s.styleMemo slot (StyleVal.ref s.nextRef) } hce
    · rw [hd]
      simp only [if_true]
      simp [heapGet, heapStrip, aGet_map_strip, aGet_cons_self]
    · intro _
      simp [recGet_recSet_self, heapGet, aGet_cons_self]
    · apply styleHit_store_memo
      · rfl
      · simp [recGet_recSet_self]
      · intro hce
        simpa [stylesCacheRec] using styleStoreCache_self c slot (StyleVal.ref s.nextRef)
          { s with styleFnCalls := bumpCount s.styleFnCalls slot,
                   heap := (s.nextRef, o) :: s.heap, nextRef := s.nextRef + 1,
                   styleMemo := recSet s.styleMemo slot (StyleVal.ref s.nextRef) } hce

theorem styleGet_hit (c : CallCtx) (slot : String) (s : RState) (v : StyleVal)
    (h : styleHit c slot s = some v) : styleGet c slot s = some (v, s) :=
  styleGetF_hit 1 c slot s v h

theorem styleGet_invoke (c : CallCtx) (slot : String) (s : RState) (o : StyleObject)
    (hmiss : styleHit c slot s = none)
    (hfn : slotFn c slot c.styleParam = some o) :
    ∃ s2, styleGet c slot s = some (StyleVal.ref s.nextRef, s2) ∧
      s2.styleFnCalls = bumpCount s.styleFnCalls slot ∧
      s2.nextRef = s.nextRef + 1 ∧
      recGet s2.styleMemo slot = some (StyleVal.ref s.nextRef) ∧
      (c.cacheEnabled = true →
        recGet (stylesCacheRec c s2) (slotKey c slot) = some (StyleVal.ref s.nextRef)) ∧
      heapGet s2 s.nextRef =
        (if c.debugEnabled then { o with debugPayload := none } else o) ∧
      (c.debugEnabled = true → recGet s2.debugMap slot = some o.debugPayload) ∧
      styleHit c slot s2 = some (StyleVal.ref s.nextRef) :=
  styleGetF_invoke 0 c slot s o hmiss hfn

theorem styleHit_congr (c : CallCtx) (slot : String) {s s2 : RState}
    (h1 : s2.styleMemo = s.styleMemo) (h2 : s2.stylesCache = s.stylesCache) :
    styleHit c slot s2 = styleHit c slot s := by
  unfold styleHit styleCacheLookup stylesCacheRec
  rw [h1, h2]

theorem classCacheHit_congr (c : CallCtx) (slot : String) {s s2 : RState}
    (h2 : s2.classesCache = s.classesCache) :
    classCacheHit c slot s2 = classCacheHit c slot s := by
  unfold classCacheHit classesCacheRec
  rw [h2]

theorem classMemoHit_congr (c : CallCtx) (slot : String) {s s2 : RState}
    (h1 : s2.classMemo = s.classMemo) :
    classMemoHit c slot s2 = classMemoHit c slot s := by
  unfold classMemoHit
  rw [h1]

theorem classComputePath_undef (c : CallCtx) (slot : String) (s s1 : RState)
    (hsg : styleGet c slot s = some (StyleVal.undef, s1)) :
    classComputePath c slot s =
      some (composeRootOpt c slot (recGet s1.classMemo slot),
        { s1 with telemetry := telemetryRenderMs c.primaryDisplayName s1.telemetry }) := by
  unfold classComputePath
  rw [hsg]

theorem classComputePath_ref (c : CallCtx) (slot : String) (s : RState) (r : Nat) (s1 : RState)
    (hsg : styleGet c slot s = some (StyleVal.ref r, s1)) :
    classComputePath c slot s =
      some (composeRootOpt c slot (some (c.renderer (heapGet s1 r) c.rendererParam)),
        { (classStoreCache c slot (c.renderer (heapGet s1 r) c.rendererParam)
            { s1 with rendererCalls := bumpCount s1.rendererCalls slot,
                      classMemo := recSet s1.classMemo slot
                        (c.renderer (heapGet s1 r) c.rendererParam) })
          with telemetry := telemetryRenderMs c.primaryDisplayName s1.telemetry }) := by
  unfold classComputePath
  rw [hsg]
  simp [recGet_recSet_self]

theorem classComputePath_ref_props (c : CallCtx) (slot : String) (s : RState) (r : Nat)
    (s1 : RState) (hsg : styleGet c slot s = some (StyleVal.ref r, s1)) :
    ∃ s3, classComputePath c slot s =
        some (composeRootOpt c slot (some (c.renderer (heapGet s1 r) c.rendererParam)), s3) ∧
      s3.styleMemo = s1.styleMemo ∧
      s3.stylesCache = s1.stylesCache ∧
      s3.styleFnCalls = s1.styleFnCalls ∧
      s3.rendererCalls = bumpCount s1.rendererCalls slot ∧
      recGet s3.classMemo slot = some (c.renderer (heapGet s1 r) c.rendererParam) ∧
      (c.cacheEnabled = true → recGet (classesCacheRec c s3) (slotKey c slot) =
        some (c.renderer (heapGet s1 r) c.rendererParam)) ∧
      (∀ nm, rootHitsOf s3.telemetry nm = rootHitsOf s1.telemetry nm) ∧
      (∀ nm, slotsHitsOf s3.telemetry nm = slotsHitsOf s1.telemetry nm) := by
  refine ⟨_, classComputePath_ref c slot s r s1 hsg, ?_, ?_, ?_, ?_, ?_, ?_, ?_, ?_⟩
  · simp
  · simp
  · simp
  · simp
  · simp [recGet_recSet_self]
  · intro hce
    exact classStoreCache_self c slot (c.renderer (heapGet s1 r) c.rendererParam)
      { s1 with rendererCalls := bumpCount s1.rendererCalls slot,
                classMemo := recSet s1.classMemo slot
                  (c.renderer (heapGet s1 r) c.rendererParam) } hce
  · intro nm
    have h1 := rootHitsOf_renderMs c.primaryDisplayName
      (classStoreCache c slot (c.renderer (heapGet s1 r) c.rendererParam)
        { s1 with rendererCalls := bumpCount s1.rendererCalls slot,
                  classMemo := recSet s1.classMemo slot
                    (c.renderer (heapGet s1 r) c.rendererParam) }).telemetry nm
    simpa using h1
  · intro nm
    have h1 := slotsHitsOf_renderMs c.primaryDisplayName
      (classStoreCache c slot (c.renderer (heapGet s1 r) c.rendererParam)
        { s1 with rendererCalls := bumpCount s1.rendererCalls slot,
                  classMemo := recSet s1.classMemo slot
                    (c.renderer (heapGet s1 r) c.rendererParam) }).telemetry nm
    simpa using h1

theorem styleReady_of_facts (c : CallCtx) (slot : String) {s s2 : RState}
    (h1 : s2.styleMemo = s.styleMemo) (h2 : s2.stylesCache = s.stylesCache)
    (h : styleReady c slot s) : styleReady c slot s2 := by
  unfold styleReady at h ⊢
  rw [styleHit_congr c slot h1 h2]
  exact h

theorem classReady_of_facts (c : CallCtx) (slot : String) {s s2 : RState}
    (h1 : s2.classMemo = s.classMemo) (h2 : s2.classesCache = s.classesCache)
    (h : classReady c slot s) : classReady c slot s2 := by
  unfold classReady at h ⊢
  rw [classCacheHit_congr c slot h2, classMemoHit_congr c slot h1]
  exact h

theorem runReads_inv (c : CallCtx) (slot : String) (o : StyleObject)
    (hfn : slotFn c slot c.styleParam = some o)
    (hforce : c.cacheEnabled = true ∨ ∀ o2, c.renderer o2 c.rendererParam ≠ "") :
    ∀ (ops : List ReadOp) (s s2 : RState),
      runReads c slot ops s = some s2 →
      (getCount s.styleFnCalls slot = 0 ∨
        (getCount s.styleFnCalls slot = 1 ∧ styleReady c slot s)) →
      (getCount s.rendererCalls slot = 0 ∨
        (getCount s.rendererCalls slot = 1 ∧ classReady c slot s)) →
      getCount s2.styleFnCalls slot ≤ 1 ∧ getCount s2.rendererCalls slot ≤ 1 := by
  intro ops
  induction ops with
  | nil =>
    intro s s2 h hS hR
    cases h
    constructor
    · rcases hS with h0 | ⟨h1, _⟩ <;> omega
    · rcases hR with h0 | ⟨h1, _⟩ <;> omega
  | cons op rest ih =>
    intro s s2 h hS hR
    cases op with
    | sread =>
      simp only [runReads] at h
      cases hh : styleHit c slot s with
      | some w =>
        rw [styleGet_hit c slot s w hh] at h
        simp only at h
        exact ih s s2 h hS hR
      | none =>
        have hS0 : getCount s.styleFnCalls slot = 0 := by
          rcases hS with h0 | ⟨_, hready⟩
          · exact h0
          · unfold styleReady at hready
            rw [hh] at hready
            cases hready
        obtain ⟨sI, heq, hcalls, _, hmemo, hcache, _, _, hhit⟩ :=
          styleGet_invoke c slot s o hh hfn
        rw [heq] at h
        simp only at h
        obtain ⟨hcc, hcm, hrc, _, _⟩ := styleGet_classSide c slot s _ _ heq
        refine ih sI s2 h (Or.inr ⟨?_, ?_⟩) ?_
        · rw [hcalls, getCount_bump_self, hS0]
        · unfold styleReady
          rw [hhit]
          rfl
        · rcases hR with h0 | ⟨h1, hr⟩
          · left; rw [hrc]; exact h0
          · right
            exact ⟨by rw [hrc]; exact h1, classReady_of_facts c slot hcm hcc hr⟩
    | cread =>
      simp only [runReads] at h
      cases hch : classCacheHit c slot s with
      | some v =>
        rw [classGet_cacheHit c slot s v hch] at h
        simp only at h
        refine ih _ s2 h ?_ ?_
        · rcases hS with h0 | ⟨h1, hready⟩
          · left; exact h0
          · exact Or.inr ⟨h1, styleReady_of_facts c slot rfl rfl hready⟩
        · rcases hR with h0 | ⟨h1, hr⟩
          · left; exact h0
          · exact Or.inr ⟨h1, classReady_of_facts c slot rfl rfl hr⟩
      | none =>
        cases hmh : classMemoHit c slot s with
        | some m =>
          rw [classGet_memoHit c slot s m hch hmh] at h
          simp only at h
          exact ih s s2 h hS hR
        | none =>
          have hR0 : getCount s.rendererCalls slot = 0 := by
            rcases hR with h0 | ⟨_, hready⟩
            · exact h0
            · exfalso
              unfold classReady at hready
              rw [hch, hmh] at hready
              rcases hready with hx | hx <;> cases hx
          rw [classGet_miss c slot s hch hmh] at h
          cases hh : styleHit c slot s with
          | some w =>
            have hw := styleHit_truthy c slot s w hh
            cases w with
            | undef => simp [StyleVal.truthy] at hw
            | ref r =>
              obtain ⟨s3, heq3, hm3, hc3, hf3, hr3, hcm3, hcc3, _, _⟩ :=
                classComputePath_ref_props c slot s r s (styleGet_hit c slot s _ hh)
              rw [heq3] at h
              simp only at h
              refine ih s3 s2 h ?_ (Or.inr ⟨?_, ?_⟩)
              · rcases hS with h0 | ⟨h1, hready⟩
                · left; rw [hf3]; exact h0
                · exact Or.inr ⟨by rw [hf3]; exact h1,
                    styleReady_of_facts c slot hm3 hc3 hready⟩
              · rw [hr3, getCount_bump_self, hR0]
              · unfold classReady
                rcases hforce with hce | hne
                · left
                  unfold classCacheHit
                  simp [hce, hcc3 hce]
                · right
                  unfold classMemoHit
                  rw [hcm3]
                  have hx := hne (heapGet s r)
                  simp [hx]
          | none =>
            have hS0 : getCount s.styleFnCalls slot = 0 := by
              rcases hS with h0 | ⟨_, hready⟩
              · exact h0
              · unfold styleReady at hready
                rw [hh] at hready
                cases hready
            obtain ⟨sI, heq, hcalls, _, hmemo, hcache, _, _, hhit⟩ :=
              styleGet_invoke c slot s o hh hfn
            obtain ⟨hcc, hcm, hrc, _, _⟩ := styleGet_classSide c slot s _ _ heq
            obtain ⟨s3, heq3, hm3, hc3, hf3, hr3, hcm3, hcc3, _, _⟩ :=
              classComputePath_ref_props c slot s s.nextRef sI heq
            rw [heq3] at h
            simp only at h
            refine ih s3 s2 h (Or.inr ⟨?_, ?_⟩) (Or.inr ⟨?_, ?_⟩)
            · rw [hf3, hcalls, getCount_bump_self, hS0]
            · apply styleReady_of_facts c slot hm3 hc3
              unfold styleReady
              rw [hhit]
              rfl
            · rw [hr3, getCount_bump_self, hrc, hR0]
            · unfold classReady
              rcases hforce with hce | hne
              · left
                unfold classCacheHit
                simp [hce, hcc3 hce]
              · right
                unfold classMemoHit
                rw [hcm3]
                have hx := hne (heapGet sI s.nextRef)
                simp [hx]

theorem runReads_styleInv (c : CallCtx) (slot : String) (o : StyleObject)
    (hfn : slotFn c slot c.styleParam = some o) :
    ∀ (ops : List ReadOp) (s s2 : RState),
      runReads c slot ops s = some s2 →
      (getCount s.styleFnCalls slot = 0 ∨
        (getCount s.styleFnCalls slot = 1 ∧ styleReady c slot s)) →
      getCount s2.styleFnCalls slot ≤ 1 := by
  intro ops
  induction ops with
  | nil =>
    intro s s2 h hS
    cases h
    rcases hS with h0 | ⟨h1, _⟩ <;> omega
  | cons op rest ih =>
    intro s s2 h hS
    cases op with
    | sread =>
      simp only [runReads] at h
      cases hh : styleHit c slot s with
      | some w =>
        rw [styleGet_hit c slot s w hh] at h
        simp only at h
        exact ih s s2 h hS
      | none =>
        have hS0 : getCount s.styleFnCalls slot = 0 := by
          rcases hS with h0 | ⟨_, hready⟩
          · exact h0
          · unfold styleReady at hready
            rw [hh] at hready
            cases hready
        obtain ⟨sI, heq, hcalls, _, _, _, _, _, hhit⟩ :=
          styleGet_invoke c slot s o hh hfn
        rw [heq] at h
        simp only at h
        refine ih sI s2 h (Or.inr ⟨?_, ?_⟩)
        · rw [hcalls, getCount_bump_self, hS0]
        · unfold styleReady
          rw [hhit]
          rfl
    | cread =>
      simp only [runReads] at h
      cases hch : classCacheHit c slot s with
      | some v =>
        rw [classGet_cacheHit c slot s v hch] at h
        simp only at h
        refine ih _ s2 h ?_
        rcases hS with h0 | ⟨h1, hready⟩
        · left; exact h0
        · exact Or.inr ⟨h1, styleReady_of_facts c slot rfl rfl hready⟩
      | none =>
        cases hmh : classMemoHit c slot s with
        | some m =>
          rw [classGet_memoHit c slot s m hch hmh] at h
          simp only at h
          exact ih s s2 h hS
        | none =>
          rw [classGet_miss c slot s hch hmh] at h
          cases hh : styleHit c slot s with
          | some w =>
            have hw := styleHit_truthy c slot s w hh
            cases w with
            | undef => simp [StyleVal.truthy] at hw
            | ref r =>
              obtain ⟨s3, heq3, hm3, hc3, hf3, _, _, _, _, _⟩ :=
                classComputePath_ref_props c slot s r s (styleGet_hit c slot s _ hh)
              rw [heq3] at h
              simp only at h
              refine ih s3 s2 h ?_
              rcases hS with h0 | ⟨h1, hready⟩
              · left; rw [hf3]; exact h0
              · exact Or.inr ⟨by rw [hf3]; exact h1,
                  styleReady_of_facts c slot hm3 hc3 hready⟩
          | none =>
            have hS0 : getCount s.styleFnCalls slot = 0 := by
              rcases hS with h0 | ⟨_, hready⟩
              · exact h0
              · unfold styleReady at hready
                rw [hh] at hready
                cases hready
            obtain ⟨sI, heq, hcalls, _, _, _, _, _, hhit⟩ :=
              styleGet_invoke c slot s o hh hfn
            obtain ⟨s3, heq3, hm3, hc3, hf3, _, _, _, _, _⟩ :=
              classComputePath_ref_props c slot s s.nextRef sI heq
            rw [heq3] at h
            simp only at h
            refine ih s3 s2 h (Or.inr ⟨?_, ?_⟩)
            · rw [hf3, hcalls, getCount_bump_self, hS0]
            · apply styleReady_of_facts c slot hm3 hc3
              unfold styleReady
              rw [hhit]
              rfl

/-- C2: for every resolution call, caching is enabled exactly when the
`enableStylesCaching` flag is set AND the call supplies neither an inline
styles override nor an inline design override AND there are no variable
overrides (absent variables, or, under the boolean-variable-caching
optimization, only boolean / absent / null variable values); a non-boolean
variable value under that optimization only degrades caching for the call
and never raises an error (the only error is the flag misconfiguration,
which is independent of the variables). -/
theorem C2_cache_eligibility (flags : PerformanceFlags) (props : Props)
    (ext : Externals) (env : Env) (opts : ResolveStylesOptions)
    (rv : List (String × VarVal)) (s : RState) :
    computeCacheEnabled flags props =
      (flags.enableStylesCaching && (props.design.isNone && props.styles.isNone) &&
        specNoVariableOverrides flags.enableBooleanVariablesCaching props.vars)
    ∧ isOkE (resolveStyles ext env opts rv s) =
      (env.production || opts.performance.enableStylesCaching ||
        !opts.performance.enableBooleanVariablesCaching)
    ∧ (∀ c s1, resolveStyles ext env opts rv s = Except.ok (c, s1) →
        c.cacheEnabled = computeCacheEnabled opts.performance opts.props) := by
  refine ⟨?_, ?_, ?_⟩
  · unfold computeCacheEnabled computeNoVariableOverrides specNoVariableOverrides
    cases hv : props.vars with
    | vnone =>
      cases flags.enableBooleanVariablesCaching <;> simp [Variables.truthy]
    | vobj l =>
      cases flags.enableBooleanVariablesCaching <;>
        cases hall : l.all (fun p => varValBoolish p.2) <;>
          simp [Variables.truthy, hall]
    | vother =>
      cases flags.enableBooleanVariablesCaching <;> simp [Variables.truthy]
  · unfold resolveStyles isOkE
    cases hp : env.production <;>
      cases h1 : opts.performance.enableStylesCaching <;>
        cases h2 : opts.performance.enableBooleanVariablesCaching <;> simp
  · intro c s1 h
    unfold resolveStyles at h
    by_cases herr : (!env.production &&
        (!opts.performance.enableStylesCaching &&
          opts.performance.enableBooleanVariablesCaching)) = true
    · rw [if_pos herr] at h
      cases h
    · rw [if_neg herr] at h
      cases h
      rfl

/-- C6: boolean-variable-caching enabled while general style caching is
disabled raises the configuration error immediately in non-production
builds (the call returns nothing, so no slot is resolved); in production
builds no error is raised and the call proceeds with caching disabled. -/
theorem C6_misconfiguration (ext : Externals) (env : Env) (opts : ResolveStylesOptions)
    (rv : List (String × VarVal)) (s : RState)
    (h1 : opts.performance.enableStylesCaching = false)
    (h2 : opts.performance.enableBooleanVariablesCaching = true) :
    (env.production = false →
      resolveStyles ext env opts rv s = Except.error configErrorMessage)
    ∧ (env.production = true → ∃ c s1,
        resolveStyles ext env opts rv s = Except.ok (c, s1) ∧ c.cacheEnabled = false) := by
  constructor
  · intro hp
    unfold resolveStyles
    simp [hp, h1, h2]
  · intro hp
    unfold resolveStyles
    have hcond : (!env.production && (!opts.performance.enableStylesCaching &&
        opts.performance.enableBooleanVariablesCaching)) = false := by
      simp [hp]
    rw [if_neg (by rw [hcond]; exact Bool.false_ne_true)]
    refine ⟨_, _, rfl, ?_⟩
    show computeCacheEnabled opts.performance opts.props = false
    unfold computeCacheEnabled
    simp [h1]

/-- C9: when the theme declares no style set for any supplied display name,
the call does not fail and substitutes the default root-only style set
whose root function returns an empty style object, on both the single- and
the multiple-display-name paths. -/
theorem C9_missing_style_set (ext : Externals) (env : Env) (opts : ResolveStylesOptions)
    (rv : List (String × VarVal)) (s : RState)
    (hmap : ∀ d ∈ opts.allDisplayNames, recGet opts.theme.componentStyles d = none)
    (hnoerr : env.production = true ∨ opts.performance.enableStylesCaching = true ∨
      opts.performance.enableBooleanVariablesCaching = false)
    (hdesign : opts.props.design = none) (hstyles : opts.props.styles = none) :
    ∃ c s1, resolveStyles ext env opts rv s = Except.ok (c, s1) ∧
      c.mergedStyles = emptyRootStyles := by
  have hcond : (!env.production && (!opts.performance.enableStylesCaching &&
      opts.performance.enableBooleanVariablesCaching)) = false := by
    rcases hnoerr with h | h | h <;> simp [h]
  unfold resolveStyles
  rw [if_neg (by rw [hcond]; exact Bool.false_ne_true)]
  refine ⟨_, _, rfl, ?_⟩
  show buildMergedStyles ext opts = emptyRootStyles
  unfold buildMergedStyles
  have hnoinline : (opts.props.design.isNone && opts.props.styles.isNone) = true := by
    rw [hdesign, hstyles]; rfl
  rw [hnoinline]
  simp only [Bool.not_true, Bool.false_eq_true, if_false]
  cases hl : opts.allDisplayNames with
  | nil => rfl
  | cons d rest =>
    cases rest with
    | nil =>
      have hd := hmap d (by rw [hl]; exact List.mem_cons_self d [])
      simp [hd]
    | cons d2 rest2 =>
      have hfm : (d :: d2 :: rest2).filterMap
          (fun displayName => recGet opts.theme.componentStyles displayName) = [] := by
        rw [List.filterMap_eq_nil_iff]
        intro a ha
        exact hmap a (by rw [hl]; exact ha)
      rw [show (((d :: d2 :: rest2).length == 1)) = false from rfl]
      simp only [Bool.false_eq_true, if_false]
      rw [hfm]
      simp

/-- C4: with caching enabled, the per-slot cache key is built exactly from
the joined display names, the serialization of all props except className /
styles / design / variables, the serialization of variables only when the
boolean-variable-caching optimization is also active (otherwise empty), the
rtl flag and the disable-animations flag, with the slot name appended; with
caching disabled the base components are empty. -/
theorem C4_cache_key (ext : Externals) (env : Env) (opts : ResolveStylesOptions)
    (rv : List (String × VarVal)) (s : RState) (c : CallCtx) (s1 : RState)
    (h : resolveStyles ext env opts rv s = Except.ok (c, s1)) (slot : String) :
    slotKey c slot = specSlotCacheKey opts c.cacheEnabled slot := by
  unfold resolveStyles at h
  by_cases herr : (!env.production && (!opts.performance.enableStylesCaching &&
      opts.performance.enableBooleanVariablesCaching)) = true
  · rw [if_pos herr] at h
    cases h
  · rw [if_neg herr] at h
    cases h
    show buildComponentCacheKey opts (computeCacheEnabled opts.performance opts.props) ++ slot =
      specSlotCacheKey opts (computeCacheEnabled opts.performance opts.props) slot
    unfold buildComponentCacheKey specSlotCacheKey
    cases hce : computeCacheEnabled opts.performance opts.props <;> simp

/-- C8: in non-production builds with debug enabled, a style function that
returns an object carrying the reserved debug payload has that payload
moved into the per-slot debug mapping under the slot name and removed from
the style object; the object the caller receives and the one the cache
holds (the same reference) no longer contain the payload, while the debug
mapping does. -/
theorem C8_debug_extraction (c : CallCtx) (slot : String) (s : RState) (o : StyleObject)
    (d : List String)
    (hdbg : c.debugEnabled = true)
    (hfn : slotFn c slot c.styleParam = some o)
    (hpayload : o.debugPayload = some d)
    (hmiss : styleHit c slot s = none) :
    ∃ s2, styleGet c slot s = some (StyleVal.ref s.nextRef, s2) ∧
      heapGet s2 s.nextRef = { o with debugPayload := none } ∧
      recGet s2.debugMap slot = some (some d) ∧
      recGet s2.styleMemo slot = some (StyleVal.ref s.nextRef) ∧
      (c.cacheEnabled = true → recGet (stylesCacheRec c s2) (slotKey c slot) =
        some (StyleVal.ref s.nextRef)) := by
  obtain ⟨s2, heq, _, _, hmemo, hcache, hheap, hdbgmap, _⟩ :=
    styleGet_invoke c slot s o hmiss hfn
  refine ⟨s2, heq, ?_, ?_, hmemo, hcache⟩
  · rw [hheap, hdbg]
    simp
  · rw [hdbgmap hdbg, hpayload]

/-- C10: on the lazy class path (no class cache entry, no class memo), a
falsy style value means the renderer is never invoked and nothing is
written to the class cache or the per-call class memo; the returned class
is `undefined` for non-root slots, and for the root slot the composition
of only the component class name and the caller className. -/
theorem C10_falsy_style_guard (c : CallCtx) (slot : String) (s s1 : RState)
    (hch : classCacheHit c slot s = none)
    (hmh : recGet s.classMemo slot = none)
    (hstyle : styleGet c slot s = some (StyleVal.undef, s1)) :
    classGet c slot s = some ((if slot == "root" then
        some (cxList [c.componentClassName, none, c.callerClassName]) else none),
      { s1 with telemetry := telemetryRenderMs c.primaryDisplayName s1.telemetry })
    ∧ s1.classMemo = s.classMemo ∧ s1.classesCache = s.classesCache
    ∧ s1.rendererCalls = s.rendererCalls := by
  obtain ⟨hcc, hcm, hrc, _, _⟩ := styleGet_classSide c slot s _ _ hstyle
  have hmiss : classMemoHit c slot s = none := by
    unfold classMemoHit
    rw [hmh]
  refine ⟨?_, hcm, hcc, hrc⟩
  rw [classGet_miss c slot s hch hmiss, classComputePath_undef c slot s s1 hstyle]
  rw [show recGet s1.classMemo slot = none from by rw [hcm, hmh]]
  unfold composeRootOpt
  rfl

/-- C5 (amended): on a class read that hits the theme-scoped class cache,
exactly one cache-hit counter for the primary display name is incremented —
the root counter when the slot is `root`, the non-root counter otherwise —
whenever the telemetry recorder is present and carries a performance record
for the primary display name, regardless of the recorder's `enabled` flag
(the source checks only `telemetry?.performance[primaryDisplayName]` on
this path); counters of other display names never change, and no cache-hit
counter changes on the non-cache-hit paths. -/
theorem C5_amended_telemetry (c : CallCtx) (slot : String) (s : RState) :
    (∀ v res s1, classCacheHit c slot s = some v →
      classGet c slot s = some (res, s1) →
      (∀ nm, rootHitsOf s1.telemetry nm = rootHitsOf s.telemetry nm +
        (if perfPresent s.telemetry c.primaryDisplayName && (nm == c.primaryDisplayName)
            && (slot == "root") then 1 else 0)) ∧
      (∀ nm, slotsHitsOf s1.telemetry nm = slotsHitsOf s.telemetry nm +
        (if perfPresent s.telemetry c.primaryDisplayName && (nm == c.primaryDisplayName)
            && !(slot == "root") then 1 else 0)))
    ∧ (∀ res s1, classCacheHit c slot s = none →
      classGet c slot s = some (res, s1) →
      (∀ nm, rootHitsOf s1.telemetry nm = rootHitsOf s.telemetry nm) ∧
      (∀ nm, slotsHitsOf s1.telemetry nm = slotsHitsOf s.telemetry nm)) := by
  constructor
  · intro v res s1 hch hget
    rw [classGet_cacheHit c slot s v hch] at hget
    cases hget
    constructor
    · intro nm
      exact rootHitsOf_cacheHit c.primaryDisplayName slot s.telemetry nm
    · intro nm
      exact slotsHitsOf_cacheHit c.primaryDisplayName slot s.telemetry nm
  · intro res s1 hch hget
    cases hmh : classMemoHit c slot s with
    | some m =>
      rw [classGet_memoHit c slot s m hch hmh] at hget
      cases hget
      exact ⟨fun nm => rfl, fun nm => rfl⟩
    | none =>
      rw [classGet_miss c slot s hch hmh] at hget
      cases hsg : styleGet c slot s with
      | none =>
        rw [classComputePath] at hget
        rw [hsg] at hget
        cases hget
      | some p =>
        obtain ⟨w, sI⟩ := p
        obtain ⟨_, _, _, hroot, hslots⟩ := styleGet_classSide c slot s w sI hsg
        cases w with
        | undef =>
          rw [classComputePath_undef c slot s sI hsg] at hget
          cases hget
          constructor
          · intro nm
            rw [rootHitsOf_renderMs]
            exact hroot nm
          · intro nm
            rw [slotsHitsOf_renderMs]
            exact hslots nm
        | ref r =>
          obtain ⟨s3, heq3, _, _, _, _, _, _, hroot3, hslots3⟩ :=
            classComputePath_ref_props c slot s r sI hsg
          rw [heq3] at hget
          cases hget
          constructor
          · intro nm
            rw [hroot3 nm]
            exact hroot nm
          · intro nm
            rw [hslots3 nm]
            exact hslots nm

/-- C3: with caching enabled, a value explicitly written through a slot's
style or class setter, and a value stored by the lazy compute path, is
returned unchanged by a subsequent read of the same slot under the same
theme and cache key (the root slot's class composed with the component and
caller class names); an empty string written as a class value is a cache
hit and is returned. -/
theorem C3_write_then_read (c : CallCtx) (slot : String) (s : RState)
    (hcache : c.cacheEnabled = true) :
    (∀ r2 : Nat, styleGet c slot (styleSet c slot (StyleVal.ref r2) s) =
      some (StyleVal.ref r2, styleSet c slot (StyleVal.ref r2) s))
    ∧ (∀ v : String, classGet c slot (classSet c slot v s) =
        some (composeRootOpt c slot (some v), cacheHitState c slot (classSet c slot v s)))
    ∧ (∀ v : StyleVal, v.truthy = true →
        recGet (stylesCacheRec c s) (slotKey c slot) = some v →
        styleGet c slot s = some (v, s))
    ∧ (∀ v : String, classCacheHit c slot s = some v →
        classGet c slot s = some (composeRootOpt c slot (some v), cacheHitState c slot s))
    ∧ (∀ o v1 s1, slotFn c slot c.styleParam = some o →
        styleGet c slot s = some (v1, s1) → styleGet c slot s1 = some (v1, s1))
    ∧ (∀ o r1 s1, slotFn c slot c.styleParam = some o →
        classGet c slot s = some (r1, s1) → ∃ s2, classGet c slot s1 = some (r1, s2)) := by
  refine ⟨?_, ?_, ?_, ?_, ?_, ?_⟩
  · intro r2
    apply styleGet_hit
    apply styleHit_store_memo
    · rfl
    · show recGet (recSet (styleStoreCache c slot (StyleVal.ref r2) s).styleMemo slot
        (StyleVal.ref r2)) slot = some (StyleVal.ref r2)
      exact recGet_recSet_self _ _ _
    · intro hce
      exact styleStoreCache_self c slot (StyleVal.ref r2) s hce
  · intro v
    apply classGet_cacheHit
    unfold classCacheHit
    simp only [hcache, if_true]
    exact classStoreCache_self c slot v s hcache
  · intro v hv hentry
    apply styleGet_hit
    unfold styleHit styleCacheLookup
    simp [hcache, hentry, hv]
  · intro v hv
    exact classGet_cacheHit c slot s v hv
  · intro o v1 s1 hfn hget
    cases hh : styleHit c slot s with
    | some w =>
      rw [styleGet_hit c slot s w hh] at hget
      cases hget
      exact styleGet_hit c slot _ _ hh
    | none =>
      obtain ⟨sI, heq, _, _, _, _, _, _, hhit⟩ := styleGet_invoke c slot s o hh hfn
      rw [heq] at hget
      cases hget
      exact styleGet_hit c slot _ _ hhit
  · intro o r1 s1 hfn hget
    cases hch : classCacheHit c slot s with
    | some v =>
      rw [classGet_cacheHit c slot s v hch] at hget
      cases hget
      have hch2 : classCacheHit c slot (cacheHitState c slot s) = some v := by
        rw [show classCacheHit c slot (cacheHitState c slot s) =
          classCacheHit c slot s from classCacheHit_congr c slot rfl]
        exact hch
      exact ⟨_, classGet_cacheHit c slot _ v hch2⟩
    | none =>
      cases hmh : classMemoHit c slot s with
      | some m =>
        rw [classGet_memoHit c slot s m hch hmh] at hget
        cases hget
        exact ⟨s, classGet_memoHit c slot s m hch hmh⟩
      | none =>
        rw [classGet_miss c slot s hch hmh] at hget
        cases hh : styleHit c slot s with
        | some w =>
          have hw := styleHit_truthy c slot s w hh
          cases w with
          | undef => simp [StyleVal.truthy] at hw
          | ref r =>
            obtain ⟨s3, heq3, _, _, _, _, _, hcc3, _, _⟩ :=
              classComputePath_ref_props c slot s r s (styleGet_hit c slot s _ hh)
            rw [heq3] at hget
            cases hget
            have hch3 : classCacheHit c slot s1 =
                some (c.renderer (heapGet s r) c.rendererParam) := by
              unfold classCacheHit
              simp [hcache, hcc3 hcache]
            exact ⟨_, classGet_cacheHit c slot s1 _ hch3⟩
        | none =>
          obtain ⟨sI, heqI, _, _, _, _, _, _, _⟩ := styleGet_invoke c slot s o hh hfn
          obtain ⟨s3, heq3, _, _, _, _, _, hcc3, _, _⟩ :=
            classComputePath_ref_props c slot s s.nextRef sI heqI
          rw [heq3] at hget
          cases hget
          have hch3 : classCacheHit c slot s1 =
              some (c.renderer (heapGet sI s.nextRef) c.rendererParam) := by
            unfold classCacheHit
            simp [hcache, hcc3 hcache]
          exact ⟨_, classGet_cacheHit c slot s1 _ hch3⟩

/-- C7: every read of the root slot's class name returns the space-joined
composition of the component class name, the generated (or cached) class
and the caller-supplied className, falsy segments omitted; on the concrete
example the composition is exactly `ui-button gen-123 custom`, and
omitting the component class name or the caller className produces no
leading, trailing or duplicated spaces. -/
theorem C7_root_composition :
    (∀ (c : CallCtx) (s : RState) (res : Option String) (s1 : RState),
      classGet c "root" s = some (res, s1) →
      ∃ g : Option String, res = some (cxList [c.componentClassName, g, c.callerClassName]))
    ∧ c7out.1 = some "ui-button gen-123 custom"
    ∧ cxList [none, some "gen-123", some "custom"] = "gen-123 custom"
    ∧ cxList [some "ui-button", some "gen-123", none] = "ui-button gen-123"
    ∧ cxList [some "", some "gen-123", some ""] = "gen-123" := by
  refine ⟨?_, by decide, by decide, by decide, by decide⟩
  intro c s res s1 hget
  cases hch : classCacheHit c "root" s with
  | some v =>
    rw [classGet_cacheHit c "root" s v hch] at hget
    cases hget
    exact ⟨some v, by simp [composeRootOpt]⟩
  | none =>
    cases hmh : classMemoHit c "root" s with
    | some m =>
      rw [classGet_memoHit c "root" s m hch hmh] at hget
      cases hget
      exact ⟨some m, by simp [composeRootOpt]⟩
    | none =>
      rw [classGet_miss c "root" s hch hmh] at hget
      cases hsg : styleGet c "root" s with
      | none =>
        rw [classComputePath, hsg] at hget
        cases hget
      | some p =>
        obtain ⟨w, sI⟩ := p
        cases w with
        | undef =>
          rw [classComputePath_undef c "root" s sI hsg] at hget
          cases hget
          exact ⟨recGet sI.classMemo "root", by simp [composeRootOpt]⟩
        | ref r =>
          obtain ⟨s3, heq3, _, _, _, _, _, _, _, _⟩ :=
            classComputePath_ref_props c "root" s r sI hsg
          rw [heq3] at hget
          cases hget
          exact ⟨some (c.renderer (heapGet sI r) c.rendererParam), by simp [composeRootOpt]⟩

/-- C1 (amended): for every slot whose style function returns an object,
the style function is invoked at most once per (slot, cache key) when
caching is eligible and at most once per (slot, call) otherwise, over any
sequence of reads of the slot's lazy style and class values, with no side
condition on the renderer; the renderer is invoked at most once over the
same reads provided caching is enabled or the rendered class name is
nonempty — when caching is disabled and the renderer returns the empty
string it is re-invoked on each class read; and with caching disabled,
reading the slot's style value twice in one call still invokes the style
function exactly once, both reads returning the same object, again with no
side condition on the renderer. -/
theorem C1_amended_at_most_once (c : CallCtx) (slot : String) (o : StyleObject) (s : RState)
    (hfn : slotFn c slot c.styleParam = some o)
    (hS0 : getCount s.styleFnCalls slot = 0)
    (hR0 : getCount s.rendererCalls slot = 0) :
    (∀ ops s2, runReads c slot ops s = some s2 →
      getCount s2.styleFnCalls slot ≤ 1)
    ∧ ((c.cacheEnabled = true ∨ ∀ o2, c.renderer o2 c.rendererParam ≠ "") →
      ∀ ops s2, runReads c slot ops s = some s2 →
        getCount s2.rendererCalls slot ≤ 1)
    ∧ (c.cacheEnabled = false → recGet s.styleMemo slot = none →
      ∃ v s1, styleGet c slot s = some (v, s1) ∧ styleGet c slot s1 = some (v, s1) ∧
        getCount s1.styleFnCalls slot = 1) := by
  refine ⟨?_, ?_, ?_⟩
  · intro ops s2 h
    exact runReads_styleInv c slot o hfn ops s s2 h (Or.inl hS0)
  · intro hforce ops s2 h
    exact (runReads_inv c slot o hfn hforce ops s s2 h (Or.inl hS0) (Or.inl hR0)).2
  · intro hce hmemo
    have hh : styleHit c slot s = none := by
      unfold styleHit
      rw [styleCacheLookup_disabled c slot s hce, hmemo]
    obtain ⟨sI, heq, hcalls, _, _, _, _, _, hhit⟩ := styleGet_invoke c slot s o hh hfn
    exact ⟨_, sI, heq, styleGet_hit c slot sI _ hhit,
      by rw [hcalls, getCount_bump_self, hS0]⟩

/-- C1 counterexample: with caching disabled and a renderer that returns
the empty string, reading the root slot's class value twice in one call
invokes the renderer twice — the empty-string memo fails the truthiness
test at line 251, so the claim's at-most-once bound for the renderer per
(slot, call) is false as stated. -/
theorem C1_counterexample :
    exCtxC1.cacheEnabled = false
    ∧ (match runReads exCtxC1 "root" [ReadOp.cread, ReadOp.cread] stEmpty with
        | some s2 => getCount s2.rendererCalls "root"
        | none => 0) = 2 := by
  constructor
  · decide
  · decide

/-- C1 witness: against the caching-disabled empty-string-renderer call
itself, a mixed read sequence keeps the style-function count at most one,
and two style reads invoke the style function exactly once and return the
same object reference — no renderer side condition needed. -/
theorem C1_witness :
    getCount c1mix.styleFnCalls "root" ≤ 1
    ∧ ∃ v s1, styleGet exCtxC1 "root" stEmpty = some (v, s1) ∧
        styleGet exCtxC1 "root" s1 = some (v, s1) ∧
        getCount s1.styleFnCalls "root" = 1 :=
  ⟨(C1_amended_at_most_once exCtxC1 "root"
      { decls := [("color", "red")], debugPayload := none } stEmpty
      (by decide) rfl rfl).1
      [ReadOp.cread, ReadOp.cread, ReadOp.sread] c1mix (by rfl),
   (C1_amended_at_most_once exCtxC1 "root"
      { decls := [("color", "red")], debugPayload := none } stEmpty
      (by decide) rfl rfl).2.2 (by decide) rfl⟩

/-- C2 witness: with both caching flags enabled and a non-boolean variable
value, the call succeeds and caching is disabled for the call. -/
theorem C2_witness :
    exPairC2.1.cacheEnabled = computeCacheEnabled exOptsC2.performance exOptsC2.props
    ∧ exPairC2.1.cacheEnabled = false :=
  ⟨(C2_cache_eligibility exOptsC2.performance exOptsC2.props exExt exEnvProd exOptsC2
      [] stEmpty).2.2 exPairC2.1 exPairC2.2 (by rfl),
   by decide⟩

/-- C3 witness: an explicitly written empty-string class value is a cache
hit on the next read and is returned unchanged. -/
theorem C3_witness :
    classGet exCtxOn "icon" (classSet exCtxOn "icon" "" stEmpty) =
      some (composeRootOpt exCtxOn "icon" (some ""),
        cacheHitState exCtxOn "icon" (classSet exCtxOn "icon" "" stEmpty)) :=
  (C3_write_then_read exCtxOn "icon" stEmpty (by decide)).2.1 ""

/-- C4 witness: the per-slot key of a caching-enabled call matches the
spec-side key builder. -/
theorem C4_witness :
    slotKey exPairOn.1 "root" = specSlotCacheKey exOptsOn exPairOn.1.cacheEnabled "root" :=
  C4_cache_key exExt exEnvProd exOptsOn [] stEmpty exPairOn.1 exPairOn.2 (by rfl) "root"

/-- C5 counterexample: a class-cache hit increments the root cache-hit
counter although the telemetry recorder's `enabled` flag is false, so the
claim's "only if telemetry is enabled" is false as stated. -/
theorem C5_counterexample :
    (stTelOff.telemetry.map Telemetry.enabled) = some false
    ∧ (match classGet exCtxOn "root" c5state with
        | some p => rootHitsOf p.2.telemetry "Button"
        | none => 0) = 1 := by
  constructor
  · decide
  · decide

/-- C5 witness: the amended characterisation instantiated on the concrete
cache-hit read with the disabled recorder. -/
theorem C5_witness :
    rootHitsOf c5out.2.telemetry "Button" = rootHitsOf c5state.telemetry "Button" +
      (if perfPresent c5state.telemetry exCtxOn.primaryDisplayName &&
          ("Button" == exCtxOn.primaryDisplayName) && ("root" == "root")
        then 1 else 0) :=
  ((C5_amended_telemetry exCtxOn "root" c5state).1 "gen-123" c5out.1 c5out.2
    (by decide) (by rfl)).1 "Button"

/-- C6 witness: the misconfiguration raises the configuration error in a
non-production build. -/
theorem C6_witness :
    resolveStyles exExt exEnvDev exOptsMis [] stEmpty = Except.error configErrorMessage :=
  (C6_misconfiguration exExt exEnvDev exOptsMis [] stEmpty rfl rfl).1 rfl

/-- C7 witness: the concrete root read decomposes as the composition. -/
theorem C7_witness :
    ∃ g, c7out.1 = some (cxList [c7ctx.componentClassName, g, c7ctx.callerClassName]) :=
  C7_root_composition.1 c7ctx stEmpty c7out.1 c7out.2 (by rfl)

/-- C8 witness: the debug payload of the concrete debug-mode call is moved
into the debug mapping and stripped from the returned object. -/
theorem C8_witness :
    ∃ s2, styleGet exCtxDbg "root" stEmpty = some (StyleVal.ref stEmpty.nextRef, s2) ∧
      heapGet s2 stEmpty.nextRef = { exDbgObj with debugPayload := none } ∧
      recGet s2.debugMap "root" = some (some ["dbg-fragment"]) ∧
      recGet s2.styleMemo "root" = some (StyleVal.ref stEmpty.nextRef) ∧
      (exCtxDbg.cacheEnabled = true →
        recGet (stylesCacheRec exCtxDbg s2) (slotKey exCtxDbg "root") =
          some (StyleVal.ref stEmpty.nextRef)) :=
  C8_debug_extraction exCtxDbg "root" stEmpty exDbgObj ["dbg-fragment"]
    (by decide) (by decide) rfl (by decide)

/-- C9 witness: the concrete two-name call against an empty theme succeeds
with the root-only default set. -/
theorem C9_witness :
    ∃ c s1, resolveStyles exExt exEnvProd exOptsC9 [] stEmpty = Except.ok (c, s1) ∧
      c.mergedStyles = emptyRootStyles :=
  C9_missing_style_set exExt exEnvProd exOptsC9 [] stEmpty
    (by intro d _; rfl) (Or.inl rfl) rfl rfl

/-- C10 witness: the concrete undefined-returning style function leads to
an undefined non-root class with no renderer invocation and no class-side
writes. -/
theorem C10_witness :
    (∃ st, classGet exCtxUndef "icon" stEmpty = some (none, st))
    ∧ c10run.2.rendererCalls = stEmpty.rendererCalls := by
  have h := C10_falsy_style_guard exCtxUndef "icon" stEmpty c10run.2
    (by decide) rfl (by rfl)
  exact ⟨⟨_, h.1⟩, h.2.2.2⟩
